import Mathlib

/-! Kimera-VIO: parameters of the visual frontend.

A shallow embedding of `src/frontend/VisionFrontEndParams.cpp`
(`SubPixelCornerFinderParams` and `FrontendParams`: `print`, `parseYAML`,
`equals`), followed by theorems about it.

Conventions of the embedding:

* a finite C++ `double` is the rational number it stands for (`ℚ`); no NaN, no
  infinity. Where the source computes with doubles (`x - y` under `fabs`, the
  conversion of an `int64` difference), the result is rounded to the nearest
  binary64 value, ties to even (`roundToDouble`); comparisons are exact;
* a C++ `int` / `Timestamp` is an `Int`; `size_t` is a `Nat` below `2 ^ 64`,
  and the one conversion `static_cast<size_t>` is written out with its
  wrap-around; the one subtraction of two `Timestamp`s wraps in 64 bits
  (`int64_sub`);
* `LOG(FATAL)` is the `Except.error` result;
* everything the source file uses but does not define (enumerator codes,
  OpenCV constants, the default tolerance argument, `StereoMatchingParams`)
  is collected in the record `Externals` and passed as a parameter.
-/

namespace VIO

/-! ## OpenCV value types used by the parameters -/

/-- The type `cv::Size`: an integer width and height, compared field by field. -/
structure Size where
  width : Int
  height : Int
  deriving DecidableEq, Repr

/-- The type `cv::TermCriteria`: a termination type, an iteration bound and an epsilon. -/
structure TermCriteria where
  type : Int
  maxCount : Int
  epsilon : ℚ
  deriving DecidableEq, Repr

/-! ## Enumerations (declared in `VisionFrontEndParams.h`) -/

/-- The feature detector modes named by the `switch` in `FrontendParams::parseYAML`. -/
inductive FeatureDetectorType where
  | FAST
  | ORB
  | AGAST
  | GFTT
  deriving DecidableEq, Repr

/-- The optical-flow prediction modes named by the `switch` in `FrontendParams::parseYAML`. -/
inductive OpticalFlowPredictorType where
  | kNoPrediction
  | kRotational
  deriving DecidableEq, Repr

/-! ## The document collaborator -/

/-- A flat key-value document, seen through the typed reads the source performs on it:
for each key, the `int`, `double` or `bool` stored under it, if any. -/
structure YamlDoc where
  ints : String → Option Int
  reals : String → Option ℚ
  bools : String → Option Bool

/-- Modelled from the spec: `YamlParser::getYamlParam(id, &output)` lives in
`kimera-vio/utils/YamlParser.h`, which is not part of the source at hand. The spec describes
it as a typed, in-place read that leaves `output` unchanged when the key is absent, and whose
failure indicator the callers ignore. The function returns the new content of `output`. -/
def getYamlParam {T : Type} (lookup : String → Option T) (id : String) (output : T) : T :=
  match lookup id with
  | some v => v
  | none => output

/-- Modelled from the spec: `UtilsNumerical::SecToNsec` lives in
`kimera-vio/utils/UtilsNumerical.h`, which is not part of the source at hand. The spec says it
converts a time in seconds to nanoseconds, `s * 10^9`; the result is stored in an integer
`Timestamp`, so the product is converted to an integer the way C++ converts a `double`,
dropping the fractional part (rounding toward zero). -/
def SecToNsec (seconds : ℚ) : Int :=
  if 0 ≤ seconds * 1000000000 then ⌊seconds * 1000000000⌋ else ⌈seconds * 1000000000⌉

/-- The conversion `static_cast<size_t>(n)` of a signed `int` on a platform with a 64-bit
`size_t`: the value of `n` modulo `2 ^ 64`. -/
def static_cast_size_t (n : Int) : Nat :=
  (n % 2 ^ 64).toNat

/-! ## Arithmetic of `double` and `int64_t` -/

/-- The integer nearest to `t`, the even one of the two when `t` is half-way. -/
def roundHalfEven (t : ℚ) : Int :=
  if Int.fract t < 1 / 2 then ⌊t⌋
  else if 1 / 2 < Int.fract t then ⌊t⌋ + 1
  else if ⌊t⌋ % 2 = 0 then ⌊t⌋
  else ⌊t⌋ + 1

/-- The binary exponent that fixes the spacing of the binary64 values around `x > 0`: the
integer part of `log2 x`, and -1022 for the subnormal range below `2 ^ (-1022)`. -/
def doubleExponent (x : ℚ) : Int :=
  max (Int.log 2 x) (-1022)

/-- The spacing of the binary64 values around `x > 0`: 52 fraction bits below the leading
one. -/
def ulp (x : ℚ) : ℚ :=
  (2 : ℚ) ^ (doubleExponent x - 52)

/-- The binary64 value nearest to `x >= 0`, ties to even. -/
def roundMagnitude (x : ℚ) : ℚ :=
  roundHalfEven (x / ulp x) * ulp x

/-- The binary64 value nearest to `q`, ties to even: the rounding that IEEE 754 applies to the
exact result of an operation. A result beyond the largest finite double stays a rational
above every finite double, where the hardware gives infinity; both fail every `<= tol`. -/
def roundToDouble (q : ℚ) : ℚ :=
  if q < 0 then -roundMagnitude (-q) else roundMagnitude q

/-- The C++ expression `x - y` on two doubles. -/
def double_sub (x y : ℚ) : ℚ :=
  roundToDouble (x - y)

/-- The C++ expression `x + y` on two doubles. -/
def double_add (x y : ℚ) : ℚ :=
  roundToDouble (x + y)

/-- The C++ expression `x - y` on two `int64_t` values, wrapping in 64 bits (two's
complement) when the exact difference is out of range. -/
def int64_sub (x y : Int) : Int :=
  (x - y + 2 ^ 63) % 2 ^ 64 - 2 ^ 63

/-- The conversion of an `int64_t` to `double`, as `fabs` applies it to an integer argument. -/
def int64_to_double (n : Int) : ℚ :=
  roundToDouble n

/-- The rational `q` is a finite binary64 value (up to the range limit): rounding leaves it
as it is. -/
def isDouble (q : ℚ) : Prop :=
  roundToDouble q = q

/-- The integer `n` is in the range of `int64_t`. -/
def isInt64 (n : Int) : Prop :=
  -(2 ^ 63) ≤ n ∧ n < 2 ^ 63

instance isDouble.decidable (q : ℚ) : Decidable (isDouble q) :=
  inferInstanceAs (Decidable (roundToDouble q = q))

instance isInt64.decidable (n : Int) : Decidable (isInt64 n) :=
  inferInstanceAs (Decidable (-(2 ^ 63) ≤ n ∧ n < 2 ^ 63))

/-! ## Parameter groups -/

/-- The fields of `SubPixelCornerFinderParams`. -/
structure SubPixelCornerFinderParams where
  term_criteria_ : TermCriteria
  window_size_ : Size
  zero_zone_ : Size
  deriving DecidableEq, Repr

/-- The fields of `FrontendParams`, in the order of `FrontendParams::print`; `S` is the type
of the owned `StereoMatchingParams`, which the source file does not define. -/
structure FrontendParams (S : Type) where
  klt_win_size_ : Int
  klt_max_iter_ : Int
  klt_max_level_ : Int
  klt_eps_ : ℚ
  maxFeatureAge_ : Int
  optical_flow_predictor_type_ : OpticalFlowPredictorType
  enable_subpixel_corner_finder_ : Bool
  subpixel_corner_finder_params_ : SubPixelCornerFinderParams
  feature_detector_type_ : FeatureDetectorType
  maxFeaturesPerFrame_ : Int
  quality_level_ : ℚ
  min_distance_ : ℚ
  block_size_ : Int
  use_harris_detector_ : Bool
  k_ : ℚ
  stereo_matching_params_ : S
  useRANSAC_ : Bool
  minNrMonoInliers_ : Int
  minNrStereoInliers_ : Int
  ransac_threshold_mono_ : ℚ
  ransac_threshold_stereo_ : ℚ
  ransac_use_1point_stereo_ : Bool
  ransac_use_2point_mono_ : Bool
  ransac_max_iterations_ : Int
  ransac_probability_ : ℚ
  ransac_randomize_ : Bool
  intra_keyframe_time_ns_ : Int
  min_number_features_ : Nat
  useStereoTracking_ : Bool
  disparityThreshold_ : ℚ

/-- One entry handed to the logging sink by a `print` call. -/
inductive Report (S : Type) where
  | frontend (p : FrontendParams S)
  | subpixel (p : SubPixelCornerFinderParams)
  | stereo (p : S)

/-- What the source file takes from elsewhere: the integer codes behind the enumerators
(`VIO::to_underlying`), the OpenCV constants `CV_TERMCRIT_ITER` and `CV_TERMCRIT_EPS`, the
default value of the `tol` argument of `SubPixelCornerFinderParams::equals`, and the three
operations of `StereoMatchingParams` that `FrontendParams` calls. `stereo_parseYAML` is the
state change of `StereoMatchingParams::parseYAML` (its boolean result is discarded by the
caller) and is taken to return. -/
structure Externals (S : Type) where
  code_FAST : Int
  code_ORB : Int
  code_AGAST : Int
  code_GFTT : Int
  code_kNoPrediction : Int
  code_kRotational : Int
  CV_TERMCRIT_ITER : Int
  CV_TERMCRIT_EPS : Int
  default_tol : ℚ
  stereo_equals : S → S → ℚ → Bool
  stereo_parseYAML : YamlDoc → S → S
  stereo_print : S → List (Report S)

/-- The call `VIO::to_underlying(t)` for a feature detector mode. -/
def FeatureDetectorType.to_underlying {S : Type} (ext : Externals S) :
    FeatureDetectorType → Int
  | .FAST => ext.code_FAST
  | .ORB => ext.code_ORB
  | .AGAST => ext.code_AGAST
  | .GFTT => ext.code_GFTT

/-- The call `VIO::to_underlying(t)` for an optical-flow prediction mode. -/
def OpticalFlowPredictorType.to_underlying {S : Type} (ext : Externals S) :
    OpticalFlowPredictorType → Int
  | .kNoPrediction => ext.code_kNoPrediction
  | .kRotational => ext.code_kRotational

/-- The values held by the local variables that `FrontendParams::parseYAML` declares without
an initialiser, before the document read that is meant to fill them. -/
structure Indeterminate where
  feature_detector_type : Int
  intra_keyframe_time_seconds : ℚ
  min_number_features : Int
  optical_flow_predictor_type : Int

/-! ## `SubPixelCornerFinderParams` -/

/-- The method `SubPixelCornerFinderParams::print`: one report. -/
def SubPixelCornerFinderParams.print {S : Type} (p : SubPixelCornerFinderParams) :
    List (Report S) :=
  [Report.subpixel p]

/-- The method `SubPixelCornerFinderParams::parseYAML` (lines 46-58): the returned boolean and
the state after the call. -/
def SubPixelCornerFinderParams.parseYAML {S : Type} (ext : Externals S) (doc : YamlDoc)
    (p : SubPixelCornerFinderParams) : Bool × SubPixelCornerFinderParams :=
  let type := ext.CV_TERMCRIT_EPS + ext.CV_TERMCRIT_ITER
  let maxCount := getYamlParam doc.ints "max_iters" p.term_criteria_.maxCount
  let epsilon := getYamlParam doc.reals "epsilon_error" p.term_criteria_.epsilon
  let window_size := getYamlParam doc.ints "window_size" 0
  let zero_zone := getYamlParam doc.ints "zero_zone" (-1)
  (true,
    { term_criteria_ := { type := type, maxCount := maxCount, epsilon := epsilon }
      window_size_ := { width := window_size, height := window_size }
      zero_zone_ := { width := zero_zone, height := zero_zone } })

/-- The method `SubPixelCornerFinderParams::equals` (lines 60-66). The argument `tol` is
accepted and not used: every field, the epsilon included, is compared with `==`. -/
def SubPixelCornerFinderParams.equals (p tp2 : SubPixelCornerFinderParams) (_tol : ℚ) : Bool :=
  decide (p.term_criteria_.type = tp2.term_criteria_.type) &&
  decide (p.term_criteria_.maxCount = tp2.term_criteria_.maxCount) &&
  decide (p.term_criteria_.epsilon = tp2.term_criteria_.epsilon) &&
  decide (p.window_size_ = tp2.window_size_) && decide (p.zero_zone_ = tp2.zero_zone_)

/-! ## `FrontendParams` -/

/-- The method `FrontendParams::print` (lines 70-143): the scalar report, then the report of
each sub-group whose flag is set. The parameters are not modified (`const` method), so only
the emitted reports are returned. -/
def FrontendParams.print {S : Type} (ext : Externals S) (p : FrontendParams S) :
    List (Report S) :=
  [Report.frontend p] ++
  (if p.enable_subpixel_corner_finder_ then p.subpixel_corner_finder_params_.print else []) ++
  (if p.useStereoTracking_ then ext.stereo_print p.stereo_matching_params_ else [])

/-- The `switch` on `feature_detector_type` (lines 163-183): the mode whose code the integer
is, or `none` for the `default:` branch, which is `LOG(FATAL)`. -/
def switchFeatureDetectorType {S : Type} (ext : Externals S) (feature_detector_type : Int) :
    Option FeatureDetectorType :=
  if feature_detector_type = FeatureDetectorType.FAST.to_underlying ext then
    some FeatureDetectorType.FAST
  else if feature_detector_type = FeatureDetectorType.ORB.to_underlying ext then
    some FeatureDetectorType.ORB
  else if feature_detector_type = FeatureDetectorType.AGAST.to_underlying ext then
    some FeatureDetectorType.AGAST
  else if feature_detector_type = FeatureDetectorType.GFTT.to_underlying ext then
    some FeatureDetectorType.GFTT
  else
    none

/-- The `switch` on `optical_flow_predictor_type` (lines 220-233): the mode whose code the
integer is, or `none` for the `default:` branch, which is `LOG(FATAL)`. -/
def switchOpticalFlowPredictorType {S : Type} (ext : Externals S)
    (optical_flow_predictor_type : Int) : Option OpticalFlowPredictorType :=
  if optical_flow_predictor_type = OpticalFlowPredictorType.kNoPrediction.to_underlying ext then
    some OpticalFlowPredictorType.kNoPrediction
  else if optical_flow_predictor_type =
      OpticalFlowPredictorType.kRotational.to_underlying ext then
    some OpticalFlowPredictorType.kRotational
  else
    none

/-- The method `FrontendParams::parseYAML` (lines 145-236), statement by statement: each
member written by the method is a local of the same name, initialised by the member's value
before the call where the read is in place, and the members are put back together at the
`return`. The result is `Except.error` with the fatal message when a `LOG(FATAL)` is reached,
and otherwise the returned boolean with the state after the call. `ind` gives the content of
the uninitialised locals. -/
def FrontendParams.parseYAML {S : Type} (ext : Externals S) (ind : Indeterminate)
    (doc : YamlDoc) (p : FrontendParams S) : Except String (Bool × FrontendParams S) :=
  let stereo_matching_params_ := ext.stereo_parseYAML doc p.stereo_matching_params_
  let klt_win_size_ := getYamlParam doc.ints "klt_win_size" p.klt_win_size_
  let klt_max_iter_ := getYamlParam doc.ints "klt_max_iter" p.klt_max_iter_
  let klt_max_level_ := getYamlParam doc.ints "klt_max_level" p.klt_max_level_
  let klt_eps_ := getYamlParam doc.reals "klt_eps" p.klt_eps_
  let maxFeatureAge_ := getYamlParam doc.ints "maxFeatureAge" p.maxFeatureAge_
  let enable_subpixel_corner_finder_ :=
    getYamlParam doc.bools "enable_subpixel_corner_finder" p.enable_subpixel_corner_finder_
  let subpixel_corner_finder_params_ :=
    if enable_subpixel_corner_finder_ then
      (SubPixelCornerFinderParams.parseYAML ext doc p.subpixel_corner_finder_params_).2
    else p.subpixel_corner_finder_params_
  let feature_detector_type :=
    getYamlParam doc.ints "feature_detector_type" ind.feature_detector_type
  match switchFeatureDetectorType ext feature_detector_type with
  | none => Except.error "Unknown Feature Detector Type"
  | some feature_detector_type_ =>
    let maxFeaturesPerFrame_ :=
      getYamlParam doc.ints "maxFeaturesPerFrame" p.maxFeaturesPerFrame_
    let quality_level_ := getYamlParam doc.reals "quality_level" p.quality_level_
    let min_distance_ := getYamlParam doc.reals "min_distance" p.min_distance_
    let block_size_ := getYamlParam doc.ints "block_size" p.block_size_
    let use_harris_detector_ :=
      getYamlParam doc.bools "use_harris_detector" p.use_harris_detector_
    let k_ := getYamlParam doc.reals "k" p.k_
    let useRANSAC_ := getYamlParam doc.bools "useRANSAC" p.useRANSAC_
    let minNrMonoInliers_ := getYamlParam doc.ints "minNrMonoInliers" p.minNrMonoInliers_
    let minNrStereoInliers_ :=
      getYamlParam doc.ints "minNrStereoInliers" p.minNrStereoInliers_
    let ransac_threshold_mono_ :=
      getYamlParam doc.reals "ransac_threshold_mono" p.ransac_threshold_mono_
    let ransac_threshold_stereo_ :=
      getYamlParam doc.reals "ransac_threshold_stereo" p.ransac_threshold_stereo_
    let ransac_use_1point_stereo_ :=
      getYamlParam doc.bools "ransac_use_1point_stereo" p.ransac_use_1point_stereo_
    let ransac_use_2point_mono_ :=
      getYamlParam doc.bools "ransac_use_2point_mono" p.ransac_use_2point_mono_
    let ransac_max_iterations_ :=
      getYamlParam doc.ints "ransac_max_iterations" p.ransac_max_iterations_
    let ransac_probability_ :=
      getYamlParam doc.reals "ransac_probability" p.ransac_probability_
    let ransac_randomize_ := getYamlParam doc.bools "ransac_randomize" p.ransac_randomize_
    let intra_keyframe_time_seconds :=
      getYamlParam doc.reals "intra_keyframe_time" ind.intra_keyframe_time_seconds
    let intra_keyframe_time_ns_ := SecToNsec intra_keyframe_time_seconds
    let min_number_features :=
      getYamlParam doc.ints "minNumberFeatures" ind.min_number_features
    let min_number_features_ := static_cast_size_t min_number_features
    let useStereoTracking_ := getYamlParam doc.bools "useStereoTracking" p.useStereoTracking_
    let disparityThreshold_ :=
      getYamlParam doc.reals "disparityThreshold" p.disparityThreshold_
    let optical_flow_predictor_type :=
      getYamlParam doc.ints "optical_flow_predictor_type" ind.optical_flow_predictor_type
    match switchOpticalFlowPredictorType ext optical_flow_predictor_type with
    | none => Except.error "Unknown Optical Flow Predictor Type"
    | some optical_flow_predictor_type_ =>
      Except.ok (true,
        { klt_win_size_ := klt_win_size_
          klt_max_iter_ := klt_max_iter_
          klt_max_level_ := klt_max_level_
          klt_eps_ := klt_eps_
          maxFeatureAge_ := maxFeatureAge_
          optical_flow_predictor_type_ := optical_flow_predictor_type_
          enable_subpixel_corner_finder_ := enable_subpixel_corner_finder_
          subpixel_corner_finder_params_ := subpixel_corner_finder_params_
          feature_detector_type_ := feature_detector_type_
          maxFeaturesPerFrame_ := maxFeaturesPerFrame_
          quality_level_ := quality_level_
          min_distance_ := min_distance_
          block_size_ := block_size_
          use_harris_detector_ := use_harris_detector_
          k_ := k_
          stereo_matching_params_ := stereo_matching_params_
          useRANSAC_ := useRANSAC_
          minNrMonoInliers_ := minNrMonoInliers_
          minNrStereoInliers_ := minNrStereoInliers_
          ransac_threshold_mono_ := ransac_threshold_mono_
          ransac_threshold_stereo_ := ransac_threshold_stereo_
          ransac_use_1point_stereo_ := ransac_use_1point_stereo_
          ransac_use_2point_mono_ := ransac_use_2point_mono_
          ransac_max_iterations_ := ransac_max_iterations_
          ransac_probability_ := ransac_probability_
          ransac_randomize_ := ransac_randomize_
          intra_keyframe_time_ns_ := intra_keyframe_time_ns_
          min_number_features_ := min_number_features_
          useStereoTracking_ := useStereoTracking_
          disparityThreshold_ := disparityThreshold_ })

/-- The method `FrontendParams::equals` (lines 238-276): the conjunction, in source order.
The sub-pixel group is compared by the one-argument call, that is with the default tolerance;
`feature_detector_type_` does not appear in the conjunction; the integer
`intra_keyframe_time_ns_` is compared through `fabs(..) <= tol` as well: the difference is an
`int64_t` subtraction, converted to `double` by `fabs`. Every `x - y` under `fabs` is the
rounded difference of two doubles. -/
def FrontendParams.equals {S : Type} (ext : Externals S) (p tp2 : FrontendParams S)
    (tol : ℚ) : Bool :=
  decide (p.klt_win_size_ = tp2.klt_win_size_) &&
  decide (p.klt_max_iter_ = tp2.klt_max_iter_) &&
  decide (p.klt_max_level_ = tp2.klt_max_level_) &&
  decide (|double_sub p.klt_eps_ tp2.klt_eps_| ≤ tol) &&
  decide (p.maxFeatureAge_ = tp2.maxFeatureAge_) &&
  decide (p.enable_subpixel_corner_finder_ = tp2.enable_subpixel_corner_finder_) &&
  p.subpixel_corner_finder_params_.equals tp2.subpixel_corner_finder_params_ ext.default_tol &&
  decide (p.maxFeaturesPerFrame_ = tp2.maxFeaturesPerFrame_) &&
  decide (|double_sub p.quality_level_ tp2.quality_level_| ≤ tol) &&
  decide (|double_sub p.min_distance_ tp2.min_distance_| ≤ tol) &&
  decide (p.block_size_ = tp2.block_size_) &&
  decide (p.use_harris_detector_ = tp2.use_harris_detector_) &&
  decide (|double_sub p.k_ tp2.k_| ≤ tol) &&
  ext.stereo_equals p.stereo_matching_params_ tp2.stereo_matching_params_ tol &&
  decide (p.useRANSAC_ = tp2.useRANSAC_) &&
  decide (p.minNrMonoInliers_ = tp2.minNrMonoInliers_) &&
  decide (p.minNrStereoInliers_ = tp2.minNrStereoInliers_) &&
  decide (|double_sub p.ransac_threshold_mono_ tp2.ransac_threshold_mono_| ≤ tol) &&
  decide (|double_sub p.ransac_threshold_stereo_ tp2.ransac_threshold_stereo_| ≤ tol) &&
  decide (p.ransac_use_1point_stereo_ = tp2.ransac_use_1point_stereo_) &&
  decide (p.ransac_use_2point_mono_ = tp2.ransac_use_2point_mono_) &&
  decide (p.ransac_max_iterations_ = tp2.ransac_max_iterations_) &&
  decide (|double_sub p.ransac_probability_ tp2.ransac_probability_| ≤ tol) &&
  decide (p.ransac_randomize_ = tp2.ransac_randomize_) &&
  decide (|int64_to_double (int64_sub p.intra_keyframe_time_ns_ tp2.intra_keyframe_time_ns_)| ≤
    tol) &&
  decide (p.min_number_features_ = tp2.min_number_features_) &&
  decide (p.useStereoTracking_ = tp2.useStereoTracking_) &&
  decide (p.optical_flow_predictor_type_ = tp2.optical_flow_predictor_type_) &&
  decide (|double_sub p.disparityThreshold_ tp2.disparityThreshold_| ≤ tol)

/-- The members that `FrontendParams::equals` compares through `fabs` hold values of their C++
types: the eight `double` members are binary64 values and the intra-keyframe time is an
`int64_t`. -/
def FrontendParams.wellFormed {S : Type} (p : FrontendParams S) : Prop :=
  isDouble p.klt_eps_ ∧ isDouble p.quality_level_ ∧ isDouble p.min_distance_ ∧
  isDouble p.k_ ∧ isDouble p.ransac_threshold_mono_ ∧ isDouble p.ransac_threshold_stereo_ ∧
  isDouble p.ransac_probability_ ∧ isDouble p.disparityThreshold_ ∧
  isInt64 p.intra_keyframe_time_ns_

/-! ## Concrete data used to exercise the definitions -/

/-- A one-field stand-in for `StereoMatchingParams`: a single threshold, read from the key
`tolerance_template_matching` and compared within the tolerance. -/
def sampleExternals : Externals ℚ where
  code_FAST := 0
  code_ORB := 1
  code_AGAST := 2
  code_GFTT := 3
  code_kNoPrediction := 0
  code_kRotational := 1
  CV_TERMCRIT_ITER := 1
  CV_TERMCRIT_EPS := 2
  default_tol := 1 / 10000000000
  stereo_equals := fun a b tol => decide (|a - b| ≤ tol)
  stereo_parseYAML := fun doc s => getYamlParam doc.reals "tolerance_template_matching" s
  stereo_print := fun s => [Report.stereo s]

/-- A sub-pixel group: 40 iterations, epsilon 0.001, a 10 x 10 window, no zero zone. -/
def sampleSubPixel : SubPixelCornerFinderParams where
  term_criteria_ := { type := 3, maxCount := 40, epsilon := 1 / 1000 }
  window_size_ := { width := 10, height := 10 }
  zero_zone_ := { width := -1, height := -1 }

/-- A frontend configuration with both sub-groups switched off. -/
def sampleParams : FrontendParams ℚ where
  klt_win_size_ := 24
  klt_max_iter_ := 30
  klt_max_level_ := 4
  klt_eps_ := 1 / 10
  maxFeatureAge_ := 25
  optical_flow_predictor_type_ := OpticalFlowPredictorType.kNoPrediction
  enable_subpixel_corner_finder_ := false
  subpixel_corner_finder_params_ := sampleSubPixel
  feature_detector_type_ := FeatureDetectorType.GFTT
  maxFeaturesPerFrame_ := 1000
  quality_level_ := 1 / 1000
  min_distance_ := 10
  block_size_ := 3
  use_harris_detector_ := false
  k_ := 1 / 25
  stereo_matching_params_ := 15 / 100
  useRANSAC_ := true
  minNrMonoInliers_ := 10
  minNrStereoInliers_ := 5
  ransac_threshold_mono_ := 1 / 1000000
  ransac_threshold_stereo_ := 1
  ransac_use_1point_stereo_ := true
  ransac_use_2point_mono_ := true
  ransac_max_iterations_ := 100
  ransac_probability_ := 995 / 1000
  ransac_randomize_ := false
  intra_keyframe_time_ns_ := 200000000
  min_number_features_ := 0
  useStereoTracking_ := false
  disparityThreshold_ := 1 / 2

/-- The configuration `sampleParams` with the FAST detector instead of GFTT. -/
def sampleParamsFAST : FrontendParams ℚ :=
  { sampleParams with feature_detector_type_ := FeatureDetectorType.FAST }

/-- The configuration `sampleParams` with a sub-pixel epsilon of 0.002 instead of 0.001. -/
def sampleParamsEpsilon : FrontendParams ℚ :=
  { sampleParams with
    subpixel_corner_finder_params_ :=
      { sampleSubPixel with term_criteria_ := { type := 3, maxCount := 40, epsilon := 2 / 1000 } } }

/-- The configuration `sampleParams` with an intra-keyframe time one nanosecond longer. -/
def sampleParamsLater : FrontendParams ℚ :=
  { sampleParams with intra_keyframe_time_ns_ := 200000001 }

/-- The configuration `sampleParams` with a different stereo-matching threshold. -/
def sampleParamsStereo : FrontendParams ℚ :=
  { sampleParams with stereo_matching_params_ := 1 / 4 }

/-- The configuration `sampleParams` with the sub-pixel corner finder switched on. -/
def sampleParamsSubPixelOn : FrontendParams ℚ :=
  { sampleParams with enable_subpixel_corner_finder_ := true }

/-- A document holding the two enumeration codes (FAST, rotational) and an intra-keyframe time
of half a second, and nothing else. -/
def sampleDoc : YamlDoc where
  ints := fun k =>
    if k = "feature_detector_type" then some 0
    else if k = "optical_flow_predictor_type" then some 1
    else none
  reals := fun k => if k = "intra_keyframe_time" then some (1 / 2) else none
  bools := fun _ => none

/-- The document `sampleDoc` with the detector code 7, which no detector mode has. -/
def badDetectorDoc : YamlDoc where
  ints := fun k =>
    if k = "feature_detector_type" then some 7
    else if k = "optical_flow_predictor_type" then some 1
    else none
  reals := fun k => if k = "intra_keyframe_time" then some (1 / 2) else none
  bools := fun _ => none

/-- Some content for the uninitialised locals. -/
def sampleIndeterminate : Indeterminate where
  feature_detector_type := 77
  intra_keyframe_time_seconds := 5
  min_number_features := -3
  optical_flow_predictor_type := 9

/-- The document `doc` with the `double` under `key` replaced by `v`. -/
def YamlDoc.setReal (doc : YamlDoc) (key : String) (v : ℚ) : YamlDoc :=
  { doc with reals := fun k => if k = key then some v else doc.reals k }

/-- The configuration `sampleParams` with both sub-groups switched on. -/
def sampleParamsAllOn : FrontendParams ℚ :=
  { sampleParams with enable_subpixel_corner_finder_ := true, useStereoTracking_ := true }

/-- A document that switches the sub-pixel finder on with a window size of 7 and no
`zero_zone` key, and gives `minNumberFeatures` as -3; the enumeration codes are those of FAST
and kRotational. -/
def subPixelDoc : YamlDoc where
  ints := fun k =>
    if k = "feature_detector_type" then some 0
    else if k = "optical_flow_predictor_type" then some 1
    else if k = "window_size" then some 7
    else if k = "minNumberFeatures" then some (-3)
    else none
  reals := fun k => if k = "intra_keyframe_time" then some (1 / 2) else none
  bools := fun k => if k = "enable_subpixel_corner_finder" then some true else none

/-- The document `subPixelDoc` with a `zero_zone` of 2 and `minNumberFeatures` 12. -/
def zeroZoneDoc : YamlDoc where
  ints := fun k =>
    if k = "feature_detector_type" then some 0
    else if k = "optical_flow_predictor_type" then some 1
    else if k = "window_size" then some 7
    else if k = "zero_zone" then some 2
    else if k = "minNumberFeatures" then some 12
    else none
  reals := fun k => if k = "intra_keyframe_time" then some (1 / 2) else none
  bools := fun k => if k = "enable_subpixel_corner_finder" then some true else none

/-- The configuration `sampleParams` with binary64 values in the `double` members. -/
def doubleParams : FrontendParams ℚ :=
  { sampleParams with
    klt_eps_ := 1 / 8
    quality_level_ := 1 / 1024
    min_distance_ := 10
    k_ := 1 / 32
    stereo_matching_params_ := 1 / 8
    ransac_threshold_mono_ := 1 / 1048576
    ransac_threshold_stereo_ := 1
    ransac_probability_ := 127 / 128
    disparityThreshold_ := 1 / 2 }

/-- The configuration `doubleParams` with the FAST detector instead of GFTT. -/
def doubleParamsFAST : FrontendParams ℚ :=
  { doubleParams with feature_detector_type_ := FeatureDetectorType.FAST }

/-- The configuration `doubleParams` with the ORB detector instead of GFTT. -/
def doubleParamsORB : FrontendParams ℚ :=
  { doubleParams with feature_detector_type_ := FeatureDetectorType.ORB }

/-- The binary64 value of the literal `0.1`. -/
def double_0_1 : ℚ := 3602879701896397 / 2 ^ 55

/-- The binary64 value of the literal `0.2`. -/
def double_0_2 : ℚ := 3602879701896397 / 2 ^ 54

/-- The binary64 value of the literal `0.3`. -/
def double_0_3 : ℚ := 5404319552844595 / 2 ^ 54

/-- The binary64 value of the literal `0.5`. -/
def double_0_5 : ℚ := 1 / 2

/-- The binary64 value of the literal `0.8`. -/
def double_0_8 : ℚ := 3602879701896397 / 2 ^ 52

/-- The configuration `doubleParams` with `klt_eps_ = 0.2`. -/
def chainParams02 : FrontendParams ℚ :=
  { doubleParams with klt_eps_ := double_0_2 }

/-- The configuration `doubleParams` with `klt_eps_ = 0.3`. -/
def chainParams03 : FrontendParams ℚ :=
  { doubleParams with klt_eps_ := double_0_3 }

/-- The configuration `doubleParams` with `klt_eps_ = 0.8`. -/
def chainParams08 : FrontendParams ℚ :=
  { doubleParams with klt_eps_ := double_0_8 }

end VIO

namespace VIO

/-! ## Rounding to the nearest double -/

/-- Rounding to the nearest integer never goes below the integer part. -/
theorem roundHalfEven_floor_le (t : ℚ) : ⌊t⌋ ≤ roundHalfEven t := by
  unfold roundHalfEven
  split_ifs <;> omega

/-- An integer is its own nearest integer. -/
theorem roundHalfEven_intCast (n : Int) : roundHalfEven (n : ℚ) = n := by
  unfold roundHalfEven
  simp

/-- The spacing of the doubles is positive. -/
theorem ulp_pos (x : ℚ) : 0 < ulp x := by
  unfold ulp
  positivity

/-- From the smallest subnormal upward, the spacing around `x` is at most `x`. -/
theorem ulp_le (x : ℚ) (hx : (2 : ℚ) ^ (-1074 : Int) ≤ x) : ulp x ≤ x := by
  have hpos : 0 < x := lt_of_lt_of_le (by positivity) hx
  unfold ulp doubleExponent
  rcases le_total (Int.log 2 x) (-1022) with h | h
  · rw [max_eq_right h]
    exact hx
  · rw [max_eq_left h]
    have h1 : ((2 : ℕ) : ℚ) ^ Int.log 2 x ≤ x := Int.zpow_log_le_self (by norm_num) hpos
    have h2 : (2 : ℚ) ^ (Int.log 2 x - 52) ≤ (2 : ℚ) ^ Int.log 2 x :=
      zpow_le_zpow_right₀ (by norm_num) (by omega)
    exact le_trans h2 (by simpa using h1)

/-- Below the half-way point the nearest integer is the integer part. -/
theorem roundHalfEven_of_lt_half (t : ℚ) (f : Int) (h1 : (f : ℚ) ≤ t) (h2 : t < f + 1 / 2) :
    roundHalfEven t = f := by
  have hf : ⌊t⌋ = f := Int.floor_eq_iff.mpr ⟨h1, by linarith⟩
  unfold roundHalfEven
  rw [Int.fract, hf, if_pos (by linarith)]

/-- At the half-way point the nearest integer is the even neighbour. -/
theorem roundHalfEven_of_half (t : ℚ) (f : Int) (h : t = f + 1 / 2) :
    roundHalfEven t = if f % 2 = 0 then f else f + 1 := by
  have hf : ⌊t⌋ = f := Int.floor_eq_iff.mpr ⟨by linarith, by linarith⟩
  unfold roundHalfEven
  rw [Int.fract, hf, if_neg (by linarith), if_neg (by linarith)]

/-- Zero rounds to zero. -/
theorem roundMagnitude_zero : roundMagnitude 0 = 0 := by
  unfold roundMagnitude
  rw [zero_div]
  have h : roundHalfEven 0 = 0 := by
    have := roundHalfEven_intCast 0
    simpa using this
  rw [h]
  simp

/-- Zero is a double. -/
theorem roundToDouble_zero : roundToDouble 0 = 0 := by
  unfold roundToDouble
  rw [if_neg (lt_irrefl 0)]
  exact roundMagnitude_zero

/-- Rounding to the nearest double commutes with negation. -/
theorem roundToDouble_neg (q : ℚ) : roundToDouble (-q) = -roundToDouble q := by
  unfold roundToDouble
  rcases lt_trichotomy q 0 with h | h | h
  · rw [if_neg (by linarith), if_pos h]
    simp
  · subst h
    simp [roundMagnitude_zero]
  · rw [if_pos (by linarith), if_neg (by linarith)]
    simp

/-- From the smallest subnormal upward, nothing rounds to zero. -/
theorem roundMagnitude_pos (x : ℚ) (hx : (2 : ℚ) ^ (-1074 : Int) ≤ x) :
    0 < roundMagnitude x := by
  unfold roundMagnitude
  have hu := ulp_pos x
  have ht : (1 : ℚ) ≤ x / ulp x := by
    rw [le_div_iff₀ hu]
    simpa using ulp_le x hx
  have hfl : (1 : Int) ≤ ⌊x / ulp x⌋ := Int.le_floor.mpr (by simpa using ht)
  have hr : (1 : Int) ≤ roundHalfEven (x / ulp x) := le_trans hfl (roundHalfEven_floor_le _)
  have hr2 : (0 : ℚ) < (roundHalfEven (x / ulp x) : ℚ) := by
    exact_mod_cast (by omega : (0 : Int) < roundHalfEven (x / ulp x))
  positivity

/-- The leading bit of a 53-bit significand, in units of the spacing. -/
theorem two_pow_52_mul_zpow (e : Int) :
    (((2 : Int) ^ 52 : Int) : ℚ) * (2 : ℚ) ^ (e - 52) = (2 : ℚ) ^ e := by
  have h : (((2 : Int) ^ 52 : Int) : ℚ) = (2 : ℚ) ^ (52 : Int) := by norm_num
  rw [h, ← zpow_add₀ (by norm_num : (2 : ℚ) ≠ 0)]
  congr 1
  omega

/-- Rounding does not leave the binade downward. -/
theorem le_roundMagnitude_of_zpow_le (x : ℚ) (e : Int) (he : -1022 ≤ e)
    (hx : (2 : ℚ) ^ e ≤ x) (hlt : x < (2 : ℚ) ^ (e + 1)) :
    (2 : ℚ) ^ e ≤ roundMagnitude x := by
  have hpos : 0 < x := lt_of_lt_of_le (by positivity) hx
  have hlog : Int.log 2 x = e := by
    have h1 : e ≤ Int.log 2 x :=
      (Int.zpow_le_iff_le_log (by norm_num) hpos).mp (by simpa using hx)
    have h2 : Int.log 2 x < e + 1 :=
      (Int.lt_zpow_iff_log_lt (by norm_num) hpos).mp (by simpa using hlt)
    omega
  have hu : ulp x = (2 : ℚ) ^ (e - 52) := by
    unfold ulp doubleExponent
    rw [hlog, max_eq_left he]
  unfold roundMagnitude
  rw [hu]
  have hupos : (0 : ℚ) < (2 : ℚ) ^ (e - 52) := by positivity
  have ht : (((2 : Int) ^ 52 : Int) : ℚ) ≤ x / (2 : ℚ) ^ (e - 52) := by
    rw [le_div_iff₀ hupos]
    rw [two_pow_52_mul_zpow]
    exact hx
  have hfl : (2 : Int) ^ 52 ≤ ⌊x / (2 : ℚ) ^ (e - 52)⌋ := Int.le_floor.mpr ht
  have hr : (2 : Int) ^ 52 ≤ roundHalfEven (x / (2 : ℚ) ^ (e - 52)) :=
    le_trans hfl (roundHalfEven_floor_le _)
  have hr2 : (((2 : Int) ^ 52 : Int) : ℚ) ≤
      (roundHalfEven (x / (2 : ℚ) ^ (e - 52)) : ℚ) := by
    exact_mod_cast hr
  calc (2 : ℚ) ^ e = (((2 : Int) ^ 52 : Int) : ℚ) * (2 : ℚ) ^ (e - 52) :=
        (two_pow_52_mul_zpow e).symm
    _ ≤ (roundHalfEven (x / (2 : ℚ) ^ (e - 52)) : ℚ) * (2 : ℚ) ^ (e - 52) :=
        mul_le_mul_of_nonneg_right hr2 (le_of_lt hupos)

/-- The rounding of `x`, given its binade and the rounded significand. -/
theorem roundMagnitude_eq (x : ℚ) (e m : Int) (he : -1022 ≤ e)
    (hx : (2 : ℚ) ^ e ≤ x) (hlt : x < (2 : ℚ) ^ (e + 1))
    (hm : roundHalfEven (x / (2 : ℚ) ^ (e - 52)) = m) :
    roundMagnitude x = m * (2 : ℚ) ^ (e - 52) := by
  have hpos : 0 < x := lt_of_lt_of_le (by positivity) hx
  have hlog : Int.log 2 x = e := by
    have h1 : e ≤ Int.log 2 x :=
      (Int.zpow_le_iff_le_log (by norm_num) hpos).mp (by simpa using hx)
    have h2 : Int.log 2 x < e + 1 :=
      (Int.lt_zpow_iff_log_lt (by norm_num) hpos).mp (by simpa using hlt)
    omega
  have hu : ulp x = (2 : ℚ) ^ (e - 52) := by
    unfold ulp doubleExponent
    rw [hlog, max_eq_left he]
  unfold roundMagnitude
  rw [hu, hm]

/-- A value of at least 1 rounds to a double of at least 1. -/
theorem one_le_roundMagnitude (x : ℚ) (hx : 1 ≤ x) : 1 ≤ roundMagnitude x := by
  have hpos : 0 < x := lt_of_lt_of_le one_pos hx
  have h0 : 0 ≤ Int.log 2 x := by
    rw [Int.log_of_one_le_right 2 hx]
    exact Int.natCast_nonneg _
  have h1 : ((2 : ℕ) : ℚ) ^ Int.log 2 x ≤ x := Int.zpow_log_le_self (by norm_num) hpos
  have h2 : x < ((2 : ℕ) : ℚ) ^ (Int.log 2 x + 1) := Int.lt_zpow_succ_log_self (by norm_num) x
  have h3 := le_roundMagnitude_of_zpow_le x (Int.log 2 x) (by omega) (by simpa using h1)
    (by simpa using h2)
  have h4 : (1 : ℚ) ≤ (2 : ℚ) ^ Int.log 2 x := one_le_zpow₀ (by norm_num) h0
  exact le_trans h4 h3

/-- The computed difference of a double and itself is zero. -/
theorem double_sub_self (x : ℚ) : double_sub x x = 0 := by
  unfold double_sub
  rw [sub_self]
  exact roundToDouble_zero

/-- Swapping the operands negates the computed difference. -/
theorem double_sub_swap (x y : ℚ) : double_sub y x = -double_sub x y := by
  unfold double_sub
  rw [← roundToDouble_neg, neg_sub]

/-- The magnitude of the computed difference does not depend on the order. -/
theorem abs_double_sub_comm (x y : ℚ) : |double_sub y x| = |double_sub x y| := by
  rw [double_sub_swap, abs_neg]

/-- The 64-bit difference of an integer and itself is zero. -/
theorem int64_sub_self (x : Int) : int64_sub x x = 0 := by
  unfold int64_sub
  norm_num

/-- The integer zero converts to the double zero. -/
theorem int64_to_double_zero : int64_to_double 0 = 0 := by
  unfold int64_to_double
  rw [Int.cast_zero]
  exact roundToDouble_zero

/-- Swapping the operands negates the 64-bit difference, except at the least `int64_t`, which
is its own negation. -/
theorem int64_sub_swap (x y : Int) :
    int64_sub y x = -int64_sub x y ∨ int64_sub y x = int64_sub x y := by
  unfold int64_sub
  norm_num
  omega

/-- The magnitude of the converted 64-bit difference does not depend on the order. -/
theorem abs_int64_to_double_sub_comm (x y : Int) :
    |int64_to_double (int64_sub y x)| = |int64_to_double (int64_sub x y)| := by
  rcases int64_sub_swap x y with h | h
  · rw [h]
    unfold int64_to_double
    rw [Int.cast_neg, roundToDouble_neg, abs_neg]
  · rw [h]

/-- Two `int64_t` values whose 64-bit difference is zero are equal. -/
theorem int64_sub_eq_zero (x y : Int) (hx : isInt64 x) (hy : isInt64 y)
    (h : int64_sub x y = 0) : x = y := by
  unfold isInt64 at hx hy
  unfold int64_sub at h
  norm_num at hx hy h
  omega

/-- A nonzero integer converts to a double of magnitude at least 1. -/
theorem one_le_abs_int64_to_double (n : Int) (hn : n ≠ 0) : 1 ≤ |int64_to_double n| := by
  unfold int64_to_double roundToDouble
  rcases lt_or_gt_of_ne hn with h | h
  · have hq : ((n : Int) : ℚ) < 0 := by exact_mod_cast h
    rw [if_pos hq, abs_neg]
    have h1 : (1 : ℚ) ≤ -(n : ℚ) := by
      have : (1 : Int) ≤ -n := by omega
      exact_mod_cast this
    exact le_trans (one_le_roundMagnitude _ h1) (le_abs_self _)
  · have hq : ¬ ((n : Int) : ℚ) < 0 := by
      have : (0 : ℚ) ≤ (n : ℚ) := by exact_mod_cast le_of_lt h
      linarith
    rw [if_neg hq]
    have h1 : (1 : ℚ) ≤ (n : ℚ) := by
      have : (1 : Int) ≤ n := by omega
      exact_mod_cast this
    exact le_trans (one_le_roundMagnitude _ h1) (le_abs_self _)

/-- Every rounded magnitude is a whole multiple of the smallest subnormal. -/
theorem roundMagnitude_mem_grid (x : ℚ) :
    ∃ k : Int, roundMagnitude x = k * (2 : ℚ) ^ (-1074 : Int) := by
  have hE : -1022 ≤ doubleExponent x := le_max_right _ _
  refine ⟨roundHalfEven (x / ulp x) * 2 ^ (doubleExponent x + 1022).toNat, ?_⟩
  unfold roundMagnitude
  have hu : ulp x =
      ((2 ^ (doubleExponent x + 1022).toNat : Int) : ℚ) * (2 : ℚ) ^ (-1074 : Int) := by
    unfold ulp
    push_cast
    rw [← zpow_natCast, ← zpow_add₀ (by norm_num : (2 : ℚ) ≠ 0)]
    congr 1
    rw [Int.toNat_of_nonneg (by omega)]
    omega
  rw [hu]
  push_cast
  ring

/-- Every rounded value is a whole multiple of the smallest subnormal. -/
theorem roundToDouble_mem_grid (q : ℚ) :
    ∃ k : Int, roundToDouble q = k * (2 : ℚ) ^ (-1074 : Int) := by
  unfold roundToDouble
  split_ifs
  · obtain ⟨k, hk⟩ := roundMagnitude_mem_grid (-q)
    exact ⟨-k, by rw [hk]; push_cast; ring⟩
  · exact roundMagnitude_mem_grid q

/-- A nonzero multiple of the smallest subnormal does not round to zero. -/
theorem roundToDouble_ne_zero_of_grid (k : Int) (hk : k ≠ 0) :
    roundToDouble (k * (2 : ℚ) ^ (-1074 : Int)) ≠ 0 := by
  have hp : (0 : ℚ) < (2 : ℚ) ^ (-1074 : Int) := by positivity
  unfold roundToDouble
  rcases lt_or_gt_of_ne hk with h | h
  · have hk1 : (1 : ℚ) ≤ -(k : ℚ) := by
      have : (1 : Int) ≤ -k := by omega
      exact_mod_cast this
    have hneg : (k : ℚ) * (2 : ℚ) ^ (-1074 : Int) < 0 :=
      mul_neg_of_neg_of_pos (by linarith) hp
    rw [if_pos hneg]
    have hle : (2 : ℚ) ^ (-1074 : Int) ≤ -((k : ℚ) * (2 : ℚ) ^ (-1074 : Int)) := by
      nlinarith
    have := roundMagnitude_pos _ hle
    linarith
  · have hk1 : (1 : ℚ) ≤ (k : ℚ) := by
      have : (1 : Int) ≤ k := by omega
      exact_mod_cast this
    have hnn : ¬ (k : ℚ) * (2 : ℚ) ^ (-1074 : Int) < 0 := by
      have : 0 ≤ (k : ℚ) * (2 : ℚ) ^ (-1074 : Int) := by positivity
      linarith
    rw [if_neg hnn]
    have hle : (2 : ℚ) ^ (-1074 : Int) ≤ (k : ℚ) * (2 : ℚ) ^ (-1074 : Int) := by
      nlinarith
    have := roundMagnitude_pos _ hle
    linarith

/-- Two doubles whose computed difference is zero are equal: there is no underflow to zero. -/
theorem eq_of_double_sub_eq_zero (x y : ℚ) (hx : isDouble x) (hy : isDouble y)
    (h : double_sub x y = 0) : x = y := by
  obtain ⟨kx, hkx⟩ := roundToDouble_mem_grid x
  obtain ⟨ky, hky⟩ := roundToDouble_mem_grid y
  unfold isDouble at hx hy
  rw [hx] at hkx
  rw [hy] at hky
  by_contra hne
  have hk : kx - ky ≠ 0 := by
    intro h0
    apply hne
    rw [hkx, hky]
    have : kx = ky := by omega
    rw [this]
  have hd : x - y = ((kx - ky : Int) : ℚ) * (2 : ℚ) ^ (-1074 : Int) := by
    rw [hkx, hky]
    push_cast
    ring
  unfold double_sub at h
  rw [hd] at h
  exact roundToDouble_ne_zero_of_grid (kx - ky) hk h

/-- A positive value in the binade `e` whose significand is a whole number of spacings is a
double. -/
theorem isDouble_of (v : ℚ) (e M : Int) (he : -1022 ≤ e)
    (h1 : (2 : ℚ) ^ e ≤ v) (h2 : v < (2 : ℚ) ^ (e + 1))
    (hM : v / (2 : ℚ) ^ (e - 52) = M) : isDouble v := by
  have hpos : 0 < v := lt_of_lt_of_le (by positivity) h1
  unfold isDouble roundToDouble
  rw [if_neg (by linarith)]
  rw [roundMagnitude_eq v e M he h1 h2 (by rw [hM]; exact roundHalfEven_intCast M)]
  rw [← hM]
  have hu : (2 : ℚ) ^ (e - 52) ≠ 0 := by positivity
  field_simp

/-- The rounding of a positive `x`, given its binade and the rounded significand. -/
theorem roundToDouble_eq_of_pos (x : ℚ) (e m : Int) (he : -1022 ≤ e)
    (hx : (2 : ℚ) ^ e ≤ x) (hlt : x < (2 : ℚ) ^ (e + 1))
    (hm : roundHalfEven (x / (2 : ℚ) ^ (e - 52)) = m) :
    roundToDouble x = m * (2 : ℚ) ^ (e - 52) := by
  have hpos : 0 < x := lt_of_lt_of_le (by positivity) hx
  unfold roundToDouble
  rw [if_neg (by linarith)]
  exact roundMagnitude_eq x e m he hx hlt hm

/-- The integer one converts to the double one. -/
theorem int64_to_double_one : int64_to_double 1 = 1 := by
  unfold int64_to_double
  rw [Int.cast_one]
  exact isDouble_of 1 0 (2 ^ 52) (by norm_num) (by norm_num) (by norm_num) (by norm_num)

/-- The integer minus one converts to the double minus one. -/
theorem int64_to_double_neg_one : int64_to_double (-1) = -1 := by
  have h := int64_to_double_one
  unfold int64_to_double at h ⊢
  rw [Int.cast_neg, roundToDouble_neg, h]

/-- The conversion of an `int64_t` to `double` rounds: `2 ^ 53 + 1` becomes `2 ^ 53`. -/
theorem int64_to_double_two_pow_53_add_one :
    int64_to_double (2 ^ 53 + 1) = 2 ^ 53 := by
  unfold int64_to_double
  have hc : (((2 ^ 53 + 1 : Int)) : ℚ) = 9007199254740993 := by norm_num
  rw [hc, roundToDouble_eq_of_pos _ 53 4503599627370496 (by norm_num) (by norm_num)
    (by norm_num)
    ((roundHalfEven_of_half _ 4503599627370496 (by norm_num)).trans (by norm_num))]
  norm_num

/-- The computed value of `0.2 - 0.3` is the exact difference. -/
theorem double_sub_0_2_0_3 :
    double_sub double_0_2 double_0_3 = -(1801439850948198 / 2 ^ 54) := by
  have h : isDouble (1801439850948198 / 2 ^ 54) :=
    isDouble_of _ (-4) 7205759403792792 (by norm_num) (by norm_num) (by norm_num)
      (by norm_num)
  have hd : double_0_2 - double_0_3 = -(1801439850948198 / 2 ^ 54) := by
    unfold double_0_2 double_0_3
    norm_num
  unfold double_sub
  rw [hd, roundToDouble_neg, h]

/-- The computed value of `0.3 - 0.8` is `-0.5`: the exact difference is half-way between two
doubles and goes to the even one. -/
theorem double_sub_0_3_0_8 : double_sub double_0_3 double_0_8 = -(1 / 2) := by
  have hd : double_0_3 - double_0_8 = -(9007199254740993 / 2 ^ 54) := by
    unfold double_0_3 double_0_8
    norm_num
  have hr : roundToDouble (9007199254740993 / 2 ^ 54) = 1 / 2 := by
    rw [roundToDouble_eq_of_pos _ (-1) 4503599627370496 (by norm_num) (by norm_num)
      (by norm_num)
      ((roundHalfEven_of_half _ 4503599627370496 (by norm_num)).trans (by norm_num))]
    norm_num
  unfold double_sub
  rw [hd, roundToDouble_neg, hr]

/-- The computed value of `0.2 - 0.8` is `-0.6000000000000001`: the exact difference is
half-way between two doubles and goes to the even one, away from zero. -/
theorem double_sub_0_2_0_8 :
    double_sub double_0_2 double_0_8 = -(5404319552844596 / 2 ^ 53) := by
  have hd : double_0_2 - double_0_8 = -(10808639105689191 / 2 ^ 54) := by
    unfold double_0_2 double_0_8
    norm_num
  have hr : roundToDouble (10808639105689191 / 2 ^ 54) = 5404319552844596 / 2 ^ 53 := by
    rw [roundToDouble_eq_of_pos _ (-1) 5404319552844596 (by norm_num) (by norm_num)
      (by norm_num)
      ((roundHalfEven_of_half _ 5404319552844595 (by norm_num)).trans (by norm_num))]
    norm_num
  unfold double_sub
  rw [hd, roundToDouble_neg, hr]

/-- The computed value of `0.1 + 0.5` is `0.6`, below the exact sum. -/
theorem double_add_0_1_0_5 :
    double_add double_0_1 double_0_5 = 5404319552844595 / 2 ^ 53 := by
  have hd : double_0_1 + double_0_5 = 21617278211378381 / 2 ^ 55 := by
    unfold double_0_1 double_0_5
    norm_num
  unfold double_add
  rw [hd, roundToDouble_eq_of_pos _ (-1) 5404319552844595 (by norm_num) (by norm_num)
    (by norm_num) (roundHalfEven_of_lt_half _ 5404319552844595 (by norm_num) (by norm_num))]
  norm_num

/-- The members of `doubleParams` hold values of their C++ types. -/
theorem doubleParams_wellFormed : doubleParams.wellFormed := by
  refine ⟨?_, ?_, ?_, ?_, ?_, ?_, ?_, ?_, ?_⟩
  · exact isDouble_of _ (-3) (2 ^ 52) (by norm_num) (by norm_num [doubleParams])
      (by norm_num [doubleParams]) (by norm_num [doubleParams])
  · exact isDouble_of _ (-10) (2 ^ 52) (by norm_num) (by norm_num [doubleParams])
      (by norm_num [doubleParams]) (by norm_num [doubleParams])
  · exact isDouble_of _ 3 (10 * 2 ^ 49) (by norm_num) (by norm_num [doubleParams])
      (by norm_num [doubleParams]) (by norm_num [doubleParams])
  · exact isDouble_of _ (-5) (2 ^ 52) (by norm_num) (by norm_num [doubleParams])
      (by norm_num [doubleParams]) (by norm_num [doubleParams])
  · exact isDouble_of _ (-20) (2 ^ 52) (by norm_num) (by norm_num [doubleParams])
      (by norm_num [doubleParams]) (by norm_num [doubleParams])
  · exact isDouble_of _ 0 (2 ^ 52) (by norm_num) (by norm_num [doubleParams])
      (by norm_num [doubleParams]) (by norm_num [doubleParams])
  · exact isDouble_of _ (-1) (127 * 2 ^ 46) (by norm_num) (by norm_num [doubleParams])
      (by norm_num [doubleParams]) (by norm_num [doubleParams])
  · exact isDouble_of _ (-1) (2 ^ 52) (by norm_num) (by norm_num [doubleParams])
      (by norm_num [doubleParams]) (by norm_num [doubleParams])
  · unfold isInt64
    norm_num [doubleParams, sampleParams]

end VIO

namespace VIO

/-! ## `equals` as a conjunction of propositions -/

/-- The boolean returned by `SubPixelCornerFinderParams::equals` is `true` exactly when the
five compared members agree. -/
theorem subpixel_equals_iff (a b : SubPixelCornerFinderParams) (tol : ℚ) :
    a.equals b tol = true ↔
      a.term_criteria_.type = b.term_criteria_.type ∧
      a.term_criteria_.maxCount = b.term_criteria_.maxCount ∧
      a.term_criteria_.epsilon = b.term_criteria_.epsilon ∧
      a.window_size_ = b.window_size_ ∧ a.zero_zone_ = b.zero_zone_ := by
  simp [SubPixelCornerFinderParams.equals, and_assoc]

/-- The boolean returned by `FrontendParams::equals` is `true` exactly when every conjunct of
the source expression holds. -/
theorem frontend_equals_iff {S : Type} (ext : Externals S) (a b : FrontendParams S)
    (tol : ℚ) :
    a.equals ext b tol = true ↔
      a.klt_win_size_ = b.klt_win_size_ ∧
      a.klt_max_iter_ = b.klt_max_iter_ ∧
      a.klt_max_level_ = b.klt_max_level_ ∧
      |double_sub a.klt_eps_ b.klt_eps_| ≤ tol ∧
      a.maxFeatureAge_ = b.maxFeatureAge_ ∧
      a.enable_subpixel_corner_finder_ = b.enable_subpixel_corner_finder_ ∧
      a.subpixel_corner_finder_params_.equals b.subpixel_corner_finder_params_
        ext.default_tol = true ∧
      a.maxFeaturesPerFrame_ = b.maxFeaturesPerFrame_ ∧
      |double_sub a.quality_level_ b.quality_level_| ≤ tol ∧
      |double_sub a.min_distance_ b.min_distance_| ≤ tol ∧
      a.block_size_ = b.block_size_ ∧
      a.use_harris_detector_ = b.use_harris_detector_ ∧
      |double_sub a.k_ b.k_| ≤ tol ∧
      ext.stereo_equals a.stereo_matching_params_ b.stereo_matching_params_ tol = true ∧
      a.useRANSAC_ = b.useRANSAC_ ∧
      a.minNrMonoInliers_ = b.minNrMonoInliers_ ∧
      a.minNrStereoInliers_ = b.minNrStereoInliers_ ∧
      |double_sub a.ransac_threshold_mono_ b.ransac_threshold_mono_| ≤ tol ∧
      |double_sub a.ransac_threshold_stereo_ b.ransac_threshold_stereo_| ≤ tol ∧
      a.ransac_use_1point_stereo_ = b.ransac_use_1point_stereo_ ∧
      a.ransac_use_2point_mono_ = b.ransac_use_2point_mono_ ∧
      a.ransac_max_iterations_ = b.ransac_max_iterations_ ∧
      |double_sub a.ransac_probability_ b.ransac_probability_| ≤ tol ∧
      a.ransac_randomize_ = b.ransac_randomize_ ∧
      |int64_to_double (int64_sub a.intra_keyframe_time_ns_ b.intra_keyframe_time_ns_)| ≤ tol ∧
      a.min_number_features_ = b.min_number_features_ ∧
      a.useStereoTracking_ = b.useStereoTracking_ ∧
      a.optical_flow_predictor_type_ = b.optical_flow_predictor_type_ ∧
      |double_sub a.disparityThreshold_ b.disparityThreshold_| ≤ tol := by
  simp only [FrontendParams.equals, Bool.and_eq_true, decide_eq_true_eq, and_assoc]

/-- The configurations `sampleParams` and `sampleParamsLater`, one nanosecond apart and alike
otherwise, are reported equal at every tolerance of at least 1. -/
theorem equals_sampleParams_sampleParamsLater (tol : ℚ) (h : 1 ≤ tol) :
    sampleParams.equals sampleExternals sampleParamsLater tol = true := by
  have h0 : (0 : ℚ) ≤ tol := le_trans zero_le_one h
  have hns : int64_sub (200000000 : Int) 200000001 = -1 := by
    unfold int64_sub
    norm_num
  rw [frontend_equals_iff, subpixel_equals_iff]
  simp [sampleParams, sampleParamsLater, sampleExternals, double_sub_self, hns,
    int64_to_double_neg_one, h0, h]

end VIO

namespace VIO

/-! ## Equality: which members decide the verdict -/

/-- C1: the claim says two configurations that differ in the feature-detector mode are never
equal; the conjunction of `FrontendParams::equals` has no conjunct for
`feature_detector_type_`, and here two configurations that differ only in that member
(GFTT against FAST) are reported equal at tolerance 0. -/
theorem equals_ignores_feature_detector_type :
    sampleParams.feature_detector_type_ ≠ sampleParamsFAST.feature_detector_type_ ∧
      sampleParams.equals sampleExternals sampleParamsFAST 0 = true := by
  refine ⟨by decide, ?_⟩
  simp [FrontendParams.equals, SubPixelCornerFinderParams.equals, sampleParams,
    sampleParamsFAST, sampleExternals, double_sub_self, int64_sub_self,
    int64_to_double_zero]

/-- C2: the claim says a sub-pixel epsilon within the tolerance keeps two configurations
equal; here the two epsilons are 0.001 and 0.002, the tolerance is 0.01, every other member
agrees, and `FrontendParams::equals` returns `false`, because the sub-pixel group compares
its epsilon with `==`. -/
theorem equals_subpixel_epsilon_exact :
    |sampleParams.subpixel_corner_finder_params_.term_criteria_.epsilon -
        sampleParamsEpsilon.subpixel_corner_finder_params_.term_criteria_.epsilon| ≤ 1 / 100 ∧
      sampleParams.equals sampleExternals sampleParamsEpsilon (1 / 100) = false := by
  constructor
  · simp only [sampleParams, sampleParamsEpsilon, sampleSubPixel]
    rw [abs_le]
    constructor <;> norm_num
  · norm_num [FrontendParams.equals, SubPixelCornerFinderParams.equals, sampleParams,
      sampleParamsEpsilon, sampleSubPixel, sampleExternals, double_sub_self, int64_sub_self,
      int64_to_double_zero]

/-- C3, as stated, fails: two configurations whose stored intra-keyframe times are 200000000
and 200000001 nanoseconds are reported equal at tolerance 1. -/
theorem equals_true_with_distinct_intra_keyframe_time :
    sampleParams.equals sampleExternals sampleParamsLater 1 = true ∧
      sampleParams.intra_keyframe_time_ns_ ≠ sampleParamsLater.intra_keyframe_time_ns_ := by
  exact ⟨equals_sampleParams_sampleParamsLater 1 (le_refl 1), by decide⟩

/-- C3, amended: when `FrontendParams::equals` returns `true`, every integer and boolean
member other than the stored nanosecond intra-keyframe time is exactly equal in the two
configurations, and the two nanosecond times, being `int64_t` values, are equal as well
whenever `tol < 1`. -/
theorem equals_true_integer_boolean_fields {S : Type} (ext : Externals S)
    (a b : FrontendParams S) (tol : ℚ) (h : a.equals ext b tol = true) :
    a.klt_win_size_ = b.klt_win_size_ ∧
      a.klt_max_iter_ = b.klt_max_iter_ ∧
      a.klt_max_level_ = b.klt_max_level_ ∧
      a.maxFeatureAge_ = b.maxFeatureAge_ ∧
      a.enable_subpixel_corner_finder_ = b.enable_subpixel_corner_finder_ ∧
      a.maxFeaturesPerFrame_ = b.maxFeaturesPerFrame_ ∧
      a.block_size_ = b.block_size_ ∧
      a.use_harris_detector_ = b.use_harris_detector_ ∧
      a.useRANSAC_ = b.useRANSAC_ ∧
      a.minNrMonoInliers_ = b.minNrMonoInliers_ ∧
      a.minNrStereoInliers_ = b.minNrStereoInliers_ ∧
      a.ransac_use_1point_stereo_ = b.ransac_use_1point_stereo_ ∧
      a.ransac_use_2point_mono_ = b.ransac_use_2point_mono_ ∧
      a.ransac_max_iterations_ = b.ransac_max_iterations_ ∧
      a.ransac_randomize_ = b.ransac_randomize_ ∧
      a.min_number_features_ = b.min_number_features_ ∧
      a.useStereoTracking_ = b.useStereoTracking_ ∧
      (tol < 1 → isInt64 a.intra_keyframe_time_ns_ → isInt64 b.intra_keyframe_time_ns_ →
        a.intra_keyframe_time_ns_ = b.intra_keyframe_time_ns_) := by
  rw [frontend_equals_iff] at h
  obtain ⟨h1, h2, h3, -, h5, h6, -, h8, -, -, h11, h12, -, -, h15, h16, h17, -, -, h20, h21,
    h22, -, h24, h25, h26, h27, -, -⟩ := h
  refine ⟨h1, h2, h3, h5, h6, h8, h11, h12, h15, h16, h17, h20, h21, h22, h24, h26, h27, ?_⟩
  intro htol ha hb
  by_contra hne
  have hsub : int64_sub a.intra_keyframe_time_ns_ b.intra_keyframe_time_ns_ ≠ 0 :=
    fun h0 => hne (int64_sub_eq_zero _ _ ha hb h0)
  have hge := one_le_abs_int64_to_double _ hsub
  linarith

/-- Witness for C3 (amended): `sampleParams` and `sampleParamsLater` are equal at tolerance
1, and their integer and boolean members agree; `sampleParams` equals itself at tolerance one
half, and the times agree. -/
theorem equals_true_integer_boolean_fields_witness :
    (sampleParams.equals sampleExternals sampleParamsLater 1 = true ∧
        sampleParams.klt_win_size_ = sampleParamsLater.klt_win_size_ ∧
        sampleParams.useStereoTracking_ = sampleParamsLater.useStereoTracking_) ∧
      (sampleParams.equals sampleExternals sampleParams (1 / 2) = true ∧
        sampleParams.intra_keyframe_time_ns_ = sampleParams.intra_keyframe_time_ns_) :=
  have h : sampleParams.equals sampleExternals sampleParamsLater 1 = true :=
    equals_sampleParams_sampleParamsLater 1 (le_refl 1)
  have hall := equals_true_integer_boolean_fields sampleExternals sampleParams
    sampleParamsLater 1 h
  have h2 : sampleParams.equals sampleExternals sampleParams (1 / 2) = true := by
    simp [FrontendParams.equals, SubPixelCornerFinderParams.equals, sampleParams,
      sampleExternals, double_sub_self, int64_sub_self, int64_to_double_zero]
  have hall2 := equals_true_integer_boolean_fields sampleExternals sampleParams
    sampleParams (1 / 2) h2
  ⟨⟨h, hall.1, hall.2.2.2.2.2.2.2.2.2.2.2.2.2.2.2.2.1⟩,
    ⟨h2, hall2.2.2.2.2.2.2.2.2.2.2.2.2.2.2.2.2.2 (by norm_num)
      (by unfold isInt64; norm_num [sampleParams])
      (by unfold isInt64; norm_num [sampleParams])⟩⟩

/-- C4: `FrontendParams::equals` compares both owned sub-groups whatever the enable flags
are: if the two sub-pixel groups differ in the termination type, the iteration bound, the
epsilon, the window size or the zero zone, or if `StereoMatchingParams::equals` on the two
stereo groups is `false`, then the verdict is `false`. -/
theorem equals_false_of_subgroup_mismatch {S : Type} (ext : Externals S)
    (a b : FrontendParams S) (tol : ℚ)
    (h : (a.subpixel_corner_finder_params_.term_criteria_.type ≠
            b.subpixel_corner_finder_params_.term_criteria_.type ∨
          a.subpixel_corner_finder_params_.term_criteria_.maxCount ≠
            b.subpixel_corner_finder_params_.term_criteria_.maxCount ∨
          a.subpixel_corner_finder_params_.term_criteria_.epsilon ≠
            b.subpixel_corner_finder_params_.term_criteria_.epsilon ∨
          a.subpixel_corner_finder_params_.window_size_ ≠
            b.subpixel_corner_finder_params_.window_size_ ∨
          a.subpixel_corner_finder_params_.zero_zone_ ≠
            b.subpixel_corner_finder_params_.zero_zone_) ∨
        ext.stereo_equals a.stereo_matching_params_ b.stereo_matching_params_ tol = false) :
    a.equals ext b tol = false := by
  rw [← Bool.not_eq_true, frontend_equals_iff, subpixel_equals_iff]
  intro hall
  obtain ⟨-, -, -, -, -, -, ⟨e1, e2, e3, e4, e5⟩, -, -, -, -, -, -, hst, -⟩ := hall
  rcases h with (h | h | h | h | h) | h
  · exact h e1
  · exact h e2
  · exact h e3
  · exact h e4
  · exact h e5
  · rw [h] at hst
    exact Bool.false_ne_true hst

/-- Witness for C4: both enable flags are `false` in `sampleParams`; a different sub-pixel
epsilon, and a different stereo threshold, each make the verdict `false`. -/
theorem equals_false_of_subgroup_mismatch_witness :
    (sampleParams.enable_subpixel_corner_finder_ = false ∧
        sampleParamsEpsilon.enable_subpixel_corner_finder_ = false ∧
        sampleParams.equals sampleExternals sampleParamsEpsilon 1 = false) ∧
      (sampleParams.useStereoTracking_ = false ∧
        sampleParamsStereo.useStereoTracking_ = false ∧
        sampleParams.equals sampleExternals sampleParamsStereo 0 = false) :=
  ⟨⟨rfl, rfl, equals_false_of_subgroup_mismatch sampleExternals sampleParams
      sampleParamsEpsilon 1 (Or.inl (Or.inr (Or.inr (Or.inl (by
        norm_num [sampleParams, sampleParamsEpsilon, sampleSubPixel])))))⟩,
    ⟨rfl, rfl, equals_false_of_subgroup_mismatch sampleExternals sampleParams
      sampleParamsStereo 0 (Or.inr (by
        simp only [sampleParams, sampleParamsStereo, sampleExternals, decide_eq_false_iff_not,
          not_le]
        rw [lt_abs]
        right
        norm_num))⟩⟩

end VIO

namespace VIO

/-! ## Reading a document -/

/-- A read of an absent key leaves the destination as it was. -/
theorem getYamlParam_none {T : Type} (lookup : String → Option T) (id : String) (output : T)
    (h : lookup id = none) : getYamlParam lookup id output = output := by
  simp [getYamlParam, h]

/-- A read of a present key stores the value of the document. -/
theorem getYamlParam_some {T : Type} (lookup : String → Option T) (id : String)
    (output v : T) (h : lookup id = some v) : getYamlParam lookup id output = v := by
  simp [getYamlParam, h]

/-- The detector `switch` reaches its `default:` branch exactly on the integers that are the
code of no detector mode. -/
theorem switchFeatureDetectorType_eq_none_iff {S : Type} (ext : Externals S) (c : Int) :
    switchFeatureDetectorType ext c = none ↔
      ∀ t : FeatureDetectorType, c ≠ t.to_underlying ext := by
  unfold switchFeatureDetectorType
  constructor
  · intro h t
    split_ifs at h with h1 h2 h3 h4
    cases t
    · exact h1
    · exact h2
    · exact h3
    · exact h4
  · intro h
    rw [if_neg (h FeatureDetectorType.FAST), if_neg (h FeatureDetectorType.ORB),
      if_neg (h FeatureDetectorType.AGAST), if_neg (h FeatureDetectorType.GFTT)]

/-- A mode selected by the detector `switch` has the integer as its code. -/
theorem switchFeatureDetectorType_some {S : Type} (ext : Externals S) (c : Int)
    (t : FeatureDetectorType) (h : switchFeatureDetectorType ext c = some t) :
    t.to_underlying ext = c := by
  unfold switchFeatureDetectorType at h
  split_ifs at h with h1 h2 h3 h4 <;> cases h
  · exact h1.symm
  · exact h2.symm
  · exact h3.symm
  · exact h4.symm

/-- The predictor `switch` reaches its `default:` branch exactly on the integers that are the
code of no prediction mode. -/
theorem switchOpticalFlowPredictorType_eq_none_iff {S : Type} (ext : Externals S) (d : Int) :
    switchOpticalFlowPredictorType ext d = none ↔
      ∀ o : OpticalFlowPredictorType, d ≠ o.to_underlying ext := by
  unfold switchOpticalFlowPredictorType
  constructor
  · intro h o
    split_ifs at h with h1 h2
    cases o
    · exact h1
    · exact h2
  · intro h
    rw [if_neg (h OpticalFlowPredictorType.kNoPrediction),
      if_neg (h OpticalFlowPredictorType.kRotational)]

/-- A mode selected by the predictor `switch` has the integer as its code. -/
theorem switchOpticalFlowPredictorType_some {S : Type} (ext : Externals S) (d : Int)
    (o : OpticalFlowPredictorType) (h : switchOpticalFlowPredictorType ext d = some o) :
    o.to_underlying ext = d := by
  unfold switchOpticalFlowPredictorType at h
  split_ifs at h with h1 h2 <;> cases h
  · exact h1.symm
  · exact h2.symm

/-- On the code of a detector mode the detector `switch` selects a mode. -/
theorem switchFeatureDetectorType_isSome {S : Type} (ext : Externals S) (c : Int)
    (h : ∃ t : FeatureDetectorType, c = t.to_underlying ext) :
    ∃ t, switchFeatureDetectorType ext c = some t := by
  cases hsw : switchFeatureDetectorType ext c with
  | none =>
    obtain ⟨t, ht⟩ := h
    exact absurd ht ((switchFeatureDetectorType_eq_none_iff ext c).mp hsw t)
  | some t => exact ⟨t, rfl⟩

/-- On the code of a prediction mode the predictor `switch` selects a mode. -/
theorem switchOpticalFlowPredictorType_isSome {S : Type} (ext : Externals S) (d : Int)
    (h : ∃ o : OpticalFlowPredictorType, d = o.to_underlying ext) :
    ∃ o, switchOpticalFlowPredictorType ext d = some o := by
  cases hsw : switchOpticalFlowPredictorType ext d with
  | none =>
    obtain ⟨o, ho⟩ := h
    exact absurd ho ((switchOpticalFlowPredictorType_eq_none_iff ext d).mp hsw o)
  | some o => exact ⟨o, rfl⟩

/-! ## Loading: the fatal path -/

/-- C5: when the document holds both enumeration keys, `FrontendParams::parseYAML` ends in
the fatal error exactly when the detector code is the code of none of FAST, ORB, AGAST, GFTT
or the predictor code is the code of none of kNoPrediction, kRotational; and when it returns,
the stored modes are the ones with the codes of the document, never a default. -/
theorem parseYAML_fatal_iff_unknown_code {S : Type} (ext : Externals S) (ind : Indeterminate)
    (doc : YamlDoc) (p : FrontendParams S) (c d : Int)
    (hc : doc.ints "feature_detector_type" = some c)
    (hd : doc.ints "optical_flow_predictor_type" = some d) :
    ((∃ msg, p.parseYAML ext ind doc = Except.error msg) ↔
        ((∀ t : FeatureDetectorType, c ≠ t.to_underlying ext) ∨
          (∀ o : OpticalFlowPredictorType, d ≠ o.to_underlying ext))) ∧
      (∀ r, p.parseYAML ext ind doc = Except.ok r →
        r.2.feature_detector_type_.to_underlying ext = c ∧
          r.2.optical_flow_predictor_type_.to_underlying ext = d) := by
  have hc2 := getYamlParam_some doc.ints "feature_detector_type" ind.feature_detector_type c hc
  have hd2 := getYamlParam_some doc.ints "optical_flow_predictor_type"
    ind.optical_flow_predictor_type d hd
  rw [← switchFeatureDetectorType_eq_none_iff, ← switchOpticalFlowPredictorType_eq_none_iff]
  unfold FrontendParams.parseYAML
  simp only [hc2, hd2]
  cases h1 : switchFeatureDetectorType ext c with
  | none => simp
  | some t =>
    cases h2 : switchOpticalFlowPredictorType ext d with
    | none => simp
    | some o =>
      simp only [reduceCtorEq, exists_false, or_self, false_iff, not_false_eq_true,
        Except.ok.injEq, true_and]
      intro r hr
      subst hr
      exact ⟨switchFeatureDetectorType_some ext c t h1,
        switchOpticalFlowPredictorType_some ext d o h2⟩

/-- Witness for C5: the detector code 7 of `badDetectorDoc` is fatal, and `sampleDoc`, whose
codes are those of FAST and kRotational, is not. -/
theorem parseYAML_fatal_iff_unknown_code_witness :
    (∃ msg, sampleParams.parseYAML sampleExternals sampleIndeterminate badDetectorDoc =
        Except.error msg) ∧
      ¬ (∃ msg, sampleParams.parseYAML sampleExternals sampleIndeterminate sampleDoc =
        Except.error msg) :=
  ⟨(parseYAML_fatal_iff_unknown_code sampleExternals sampleIndeterminate badDetectorDoc
      sampleParams 7 1 rfl rfl).1.mpr (Or.inl (fun t => by
        cases t <;> simp [FeatureDetectorType.to_underlying, sampleExternals])),
    fun h => by
      rcases (parseYAML_fatal_iff_unknown_code sampleExternals sampleIndeterminate sampleDoc
        sampleParams 0 1 rfl rfl).1.mp h with h1 | h1
      · exact h1 FeatureDetectorType.FAST rfl
      · exact h1 OpticalFlowPredictorType.kRotational rfl⟩

end VIO

namespace VIO

/-! ## Loading: the state after a call that returns -/

/-- When both `switch` statements select a mode, `FrontendParams::parseYAML` returns `true`,
and each member of the state after the call is the value computed for it by the statements
of the method. -/
theorem parseYAML_ok_fields {S : Type} (ext : Externals S) (ind : Indeterminate)
    (doc : YamlDoc) (p : FrontendParams S) (t : FeatureDetectorType)
    (o : OpticalFlowPredictorType)
    (ht : switchFeatureDetectorType ext
      (getYamlParam doc.ints "feature_detector_type" ind.feature_detector_type) = some t)
    (ho : switchOpticalFlowPredictorType ext
      (getYamlParam doc.ints "optical_flow_predictor_type" ind.optical_flow_predictor_type) =
        some o) :
    ∃ q, p.parseYAML ext ind doc = Except.ok (true, q) ∧
      q.klt_win_size_ = getYamlParam doc.ints "klt_win_size" p.klt_win_size_ ∧
      q.klt_max_iter_ = getYamlParam doc.ints "klt_max_iter" p.klt_max_iter_ ∧
      q.klt_max_level_ = getYamlParam doc.ints "klt_max_level" p.klt_max_level_ ∧
      q.klt_eps_ = getYamlParam doc.reals "klt_eps" p.klt_eps_ ∧
      q.maxFeatureAge_ = getYamlParam doc.ints "maxFeatureAge" p.maxFeatureAge_ ∧
      q.optical_flow_predictor_type_ = o ∧
      q.enable_subpixel_corner_finder_ =
        getYamlParam doc.bools "enable_subpixel_corner_finder"
          p.enable_subpixel_corner_finder_ ∧
      q.subpixel_corner_finder_params_ =
        (if getYamlParam doc.bools "enable_subpixel_corner_finder"
            p.enable_subpixel_corner_finder_ = true then
          (SubPixelCornerFinderParams.parseYAML ext doc p.subpixel_corner_finder_params_).2
        else p.subpixel_corner_finder_params_) ∧
      q.feature_detector_type_ = t ∧
      q.maxFeaturesPerFrame_ =
        getYamlParam doc.ints "maxFeaturesPerFrame" p.maxFeaturesPerFrame_ ∧
      q.quality_level_ = getYamlParam doc.reals "quality_level" p.quality_level_ ∧
      q.min_distance_ = getYamlParam doc.reals "min_distance" p.min_distance_ ∧
      q.block_size_ = getYamlParam doc.ints "block_size" p.block_size_ ∧
      q.use_harris_detector_ =
        getYamlParam doc.bools "use_harris_detector" p.use_harris_detector_ ∧
      q.k_ = getYamlParam doc.reals "k" p.k_ ∧
      q.stereo_matching_params_ = ext.stereo_parseYAML doc p.stereo_matching_params_ ∧
      q.useRANSAC_ = getYamlParam doc.bools "useRANSAC" p.useRANSAC_ ∧
      q.minNrMonoInliers_ = getYamlParam doc.ints "minNrMonoInliers" p.minNrMonoInliers_ ∧
      q.minNrStereoInliers_ =
        getYamlParam doc.ints "minNrStereoInliers" p.minNrStereoInliers_ ∧
      q.ransac_threshold_mono_ =
        getYamlParam doc.reals "ransac_threshold_mono" p.ransac_threshold_mono_ ∧
      q.ransac_threshold_stereo_ =
        getYamlParam doc.reals "ransac_threshold_stereo" p.ransac_threshold_stereo_ ∧
      q.ransac_use_1point_stereo_ =
        getYamlParam doc.bools "ransac_use_1point_stereo" p.ransac_use_1point_stereo_ ∧
      q.ransac_use_2point_mono_ =
        getYamlParam doc.bools "ransac_use_2point_mono" p.ransac_use_2point_mono_ ∧
      q.ransac_max_iterations_ =
        getYamlParam doc.ints "ransac_max_iterations" p.ransac_max_iterations_ ∧
      q.ransac_probability_ =
        getYamlParam doc.reals "ransac_probability" p.ransac_probability_ ∧
      q.ransac_randomize_ = getYamlParam doc.bools "ransac_randomize" p.ransac_randomize_ ∧
      q.intra_keyframe_time_ns_ =
        SecToNsec
          (getYamlParam doc.reals "intra_keyframe_time" ind.intra_keyframe_time_seconds) ∧
      q.min_number_features_ =
        static_cast_size_t
          (getYamlParam doc.ints "minNumberFeatures" ind.min_number_features) ∧
      q.useStereoTracking_ =
        getYamlParam doc.bools "useStereoTracking" p.useStereoTracking_ ∧
      q.disparityThreshold_ =
        getYamlParam doc.reals "disparityThreshold" p.disparityThreshold_ := by
  unfold FrontendParams.parseYAML
  simp only [ht, ho]
  exact ⟨_, rfl, rfl, rfl, rfl, rfl, rfl, rfl, rfl, rfl, rfl, rfl, rfl, rfl, rfl, rfl, rfl,
    rfl, rfl, rfl, rfl, rfl, rfl, rfl, rfl, rfl, rfl, rfl, rfl, rfl, rfl, rfl⟩

/-- A document that holds both enumeration keys with the codes of two modes is loaded without
a fatal error, whatever the uninitialised locals held. -/
theorem switches_of_valid_codes {S : Type} (ext : Externals S) (ind : Indeterminate)
    (doc : YamlDoc) (c d : Int)
    (hc : doc.ints "feature_detector_type" = some c)
    (hcv : ∃ t : FeatureDetectorType, c = t.to_underlying ext)
    (hd : doc.ints "optical_flow_predictor_type" = some d)
    (hdv : ∃ o : OpticalFlowPredictorType, d = o.to_underlying ext) :
    ∃ t o,
      switchFeatureDetectorType ext
        (getYamlParam doc.ints "feature_detector_type" ind.feature_detector_type) = some t ∧
      switchOpticalFlowPredictorType ext
        (getYamlParam doc.ints "optical_flow_predictor_type"
          ind.optical_flow_predictor_type) = some o := by
  rw [getYamlParam_some doc.ints "feature_detector_type" ind.feature_detector_type c hc,
    getYamlParam_some doc.ints "optical_flow_predictor_type" ind.optical_flow_predictor_type
      d hd]
  obtain ⟨t, ht⟩ := switchFeatureDetectorType_isSome ext c hcv
  obtain ⟨o, ho⟩ := switchOpticalFlowPredictorType_isSome ext d hdv
  exact ⟨t, o, ht, ho⟩

/-! ## Loading: keys that are absent from the document -/

/-- C6, as stated, fails: with the sub-pixel finder enabled and no `window_size` key in the
document, the window region after `FrontendParams::parseYAML` is not the 10 x 10 region held
before the call. -/
theorem parseYAML_absent_window_size_not_kept :
    ∃ q, sampleParamsSubPixelOn.parseYAML sampleExternals sampleIndeterminate sampleDoc =
        Except.ok (true, q) ∧
      q.enable_subpixel_corner_finder_ = true ∧
      sampleDoc.ints "window_size" = none ∧
      q.subpixel_corner_finder_params_.window_size_ ≠
        sampleParamsSubPixelOn.subpixel_corner_finder_params_.window_size_ := by
  obtain ⟨q, hq, -, -, -, -, -, -, hen, hsub, -⟩ :=
    parseYAML_ok_fields sampleExternals sampleIndeterminate sampleDoc sampleParamsSubPixelOn
      FeatureDetectorType.FAST OpticalFlowPredictorType.kRotational rfl rfl
  refine ⟨q, hq, ?_, rfl, ?_⟩
  · rw [hen]
    rfl
  · rw [hsub]
    simp [SubPixelCornerFinderParams.parseYAML, getYamlParam, sampleDoc,
      sampleParamsSubPixelOn, sampleParams, sampleSubPixel]

end VIO

namespace VIO

/-- C6, amended: for every prior state and every document that holds the codes of two modes,
`FrontendParams::parseYAML` returns `true`, and each key that is read in place and is absent
from the document leaves its member at the value held before the call; when the sub-pixel
finder is enabled after the load, the same holds for `max_iters` and `epsilon_error`, while
an absent `window_size` gives the 0 x 0 window region. -/
theorem parseYAML_absent_keys_keep_fields {S : Type} (ext : Externals S)
    (ind : Indeterminate) (doc : YamlDoc) (p : FrontendParams S) (c d : Int)
    (hc : doc.ints "feature_detector_type" = some c)
    (hcv : ∃ t : FeatureDetectorType, c = t.to_underlying ext)
    (hd : doc.ints "optical_flow_predictor_type" = some d)
    (hdv : ∃ o : OpticalFlowPredictorType, d = o.to_underlying ext) :
    ∃ q, p.parseYAML ext ind doc = Except.ok (true, q) ∧
      (doc.ints "klt_win_size" = none → q.klt_win_size_ = p.klt_win_size_) ∧
      (doc.ints "klt_max_iter" = none → q.klt_max_iter_ = p.klt_max_iter_) ∧
      (doc.ints "klt_max_level" = none → q.klt_max_level_ = p.klt_max_level_) ∧
      (doc.reals "klt_eps" = none → q.klt_eps_ = p.klt_eps_) ∧
      (doc.ints "maxFeatureAge" = none → q.maxFeatureAge_ = p.maxFeatureAge_) ∧
      (doc.bools "enable_subpixel_corner_finder" = none →
        q.enable_subpixel_corner_finder_ = p.enable_subpixel_corner_finder_) ∧
      (doc.ints "maxFeaturesPerFrame" = none →
        q.maxFeaturesPerFrame_ = p.maxFeaturesPerFrame_) ∧
      (doc.reals "quality_level" = none → q.quality_level_ = p.quality_level_) ∧
      (doc.reals "min_distance" = none → q.min_distance_ = p.min_distance_) ∧
      (doc.ints "block_size" = none → q.block_size_ = p.block_size_) ∧
      (doc.bools "use_harris_detector" = none →
        q.use_harris_detector_ = p.use_harris_detector_) ∧
      (doc.reals "k" = none → q.k_ = p.k_) ∧
      (doc.bools "useRANSAC" = none → q.useRANSAC_ = p.useRANSAC_) ∧
      (doc.ints "minNrMonoInliers" = none → q.minNrMonoInliers_ = p.minNrMonoInliers_) ∧
      (doc.ints "minNrStereoInliers" = none →
        q.minNrStereoInliers_ = p.minNrStereoInliers_) ∧
      (doc.reals "ransac_threshold_mono" = none →
        q.ransac_threshold_mono_ = p.ransac_threshold_mono_) ∧
      (doc.reals "ransac_threshold_stereo" = none →
        q.ransac_threshold_stereo_ = p.ransac_threshold_stereo_) ∧
      (doc.bools "ransac_use_1point_stereo" = none →
        q.ransac_use_1point_stereo_ = p.ransac_use_1point_stereo_) ∧
      (doc.bools "ransac_use_2point_mono" = none →
        q.ransac_use_2point_mono_ = p.ransac_use_2point_mono_) ∧
      (doc.ints "ransac_max_iterations" = none →
        q.ransac_max_iterations_ = p.ransac_max_iterations_) ∧
      (doc.reals "ransac_probability" = none →
        q.ransac_probability_ = p.ransac_probability_) ∧
      (doc.bools "ransac_randomize" = none → q.ransac_randomize_ = p.ransac_randomize_) ∧
      (doc.bools "useStereoTracking" = none →
        q.useStereoTracking_ = p.useStereoTracking_) ∧
      (doc.reals "disparityThreshold" = none →
        q.disparityThreshold_ = p.disparityThreshold_) ∧
      (q.enable_subpixel_corner_finder_ = true →
        (doc.ints "max_iters" = none →
          q.subpixel_corner_finder_params_.term_criteria_.maxCount =
            p.subpixel_corner_finder_params_.term_criteria_.maxCount) ∧
        (doc.reals "epsilon_error" = none →
          q.subpixel_corner_finder_params_.term_criteria_.epsilon =
            p.subpixel_corner_finder_params_.term_criteria_.epsilon) ∧
        (doc.ints "window_size" = none →
          q.subpixel_corner_finder_params_.window_size_ = { width := 0, height := 0 })) := by
  obtain ⟨t, o, ht, ho⟩ := switches_of_valid_codes ext ind doc c d hc hcv hd hdv
  obtain ⟨q, hq, f1, f2, f3, f4, f5, -, f7, f8, -, f10, f11, f12, f13, f14, f15, -, f17, f18,
    f19, f20, f21, f22, f23, f24, f25, f26, -, -, f29, f30⟩ :=
    parseYAML_ok_fields ext ind doc p t o ht ho
  refine ⟨q, hq, ?_, ?_, ?_, ?_, ?_, ?_, ?_, ?_, ?_, ?_, ?_, ?_, ?_, ?_, ?_, ?_, ?_, ?_, ?_,
    ?_, ?_, ?_, ?_, ?_, ?_⟩
  · intro h; rw [f1, getYamlParam_none _ _ _ h]
  · intro h; rw [f2, getYamlParam_none _ _ _ h]
  · intro h; rw [f3, getYamlParam_none _ _ _ h]
  · intro h; rw [f4, getYamlParam_none _ _ _ h]
  · intro h; rw [f5, getYamlParam_none _ _ _ h]
  · intro h; rw [f7, getYamlParam_none _ _ _ h]
  · intro h; rw [f10, getYamlParam_none _ _ _ h]
  · intro h; rw [f11, getYamlParam_none _ _ _ h]
  · intro h; rw [f12, getYamlParam_none _ _ _ h]
  · intro h; rw [f13, getYamlParam_none _ _ _ h]
  · intro h; rw [f14, getYamlParam_none _ _ _ h]
  · intro h; rw [f15, getYamlParam_none _ _ _ h]
  · intro h; rw [f17, getYamlParam_none _ _ _ h]
  · intro h; rw [f18, getYamlParam_none _ _ _ h]
  · intro h; rw [f19, getYamlParam_none _ _ _ h]
  · intro h; rw [f20, getYamlParam_none _ _ _ h]
  · intro h; rw [f21, getYamlParam_none _ _ _ h]
  · intro h; rw [f22, getYamlParam_none _ _ _ h]
  · intro h; rw [f23, getYamlParam_none _ _ _ h]
  · intro h; rw [f24, getYamlParam_none _ _ _ h]
  · intro h; rw [f25, getYamlParam_none _ _ _ h]
  · intro h; rw [f26, getYamlParam_none _ _ _ h]
  · intro h; rw [f29, getYamlParam_none _ _ _ h]
  · intro h; rw [f30, getYamlParam_none _ _ _ h]
  · intro hen
    rw [f7] at hen
    rw [f8, if_pos hen]
    refine ⟨?_, ?_, ?_⟩
    · intro h
      simp only [SubPixelCornerFinderParams.parseYAML]
      rw [getYamlParam_none _ _ _ h]
    · intro h
      simp only [SubPixelCornerFinderParams.parseYAML]
      rw [getYamlParam_none _ _ _ h]
    · intro h
      simp only [SubPixelCornerFinderParams.parseYAML]
      rw [getYamlParam_none _ _ _ h]

/-- Witness for C6 (amended): `sampleDoc` holds the codes of FAST and kRotational and none of
the other keys; loaded over `sampleParamsSubPixelOn` it keeps `klt_win_size_` and gives the
0 x 0 window region. -/
theorem parseYAML_absent_keys_keep_fields_witness :
    ∃ q, sampleParamsSubPixelOn.parseYAML sampleExternals sampleIndeterminate sampleDoc =
        Except.ok (true, q) ∧
      q.klt_win_size_ = 24 ∧
      q.subpixel_corner_finder_params_.term_criteria_.maxCount = 40 ∧
      q.subpixel_corner_finder_params_.window_size_ = { width := 0, height := 0 } := by
  obtain ⟨q, hq, h1, -, -, -, -, h6, -, -, -, -, -, -, -, -, -, -, -, -, -, -, -, -, -, -,
    hsub⟩ :=
    parseYAML_absent_keys_keep_fields sampleExternals sampleIndeterminate sampleDoc
      sampleParamsSubPixelOn 0 1 rfl ⟨FeatureDetectorType.FAST, rfl⟩ rfl
      ⟨OpticalFlowPredictorType.kRotational, rfl⟩
  have hen : q.enable_subpixel_corner_finder_ = true := (h6 rfl).trans rfl
  exact ⟨q, hq, (h1 rfl).trans rfl, ((hsub hen).1 rfl).trans rfl, (hsub hen).2.2 rfl⟩

/-! ## Equality as a relation -/

/-- C7: `FrontendParams::equals` is reflexive at every tolerance `tol >= 0`, in particular at
`tol = 0`, when `StereoMatchingParams::equals` accepts the stereo group against itself. -/
theorem equals_refl {S : Type} (ext : Externals S) (p : FrontendParams S) (tol : ℚ)
    (htol : 0 ≤ tol)
    (hs : ext.stereo_equals p.stereo_matching_params_ p.stereo_matching_params_ tol = true) :
    p.equals ext p tol = true := by
  rw [frontend_equals_iff, subpixel_equals_iff]
  simp only [double_sub_self, int64_sub_self, int64_to_double_zero, abs_zero, htol, hs,
    and_self]

/-- Witness for C7: `sampleParams` equals itself at tolerance 0. -/
theorem equals_refl_witness : sampleParams.equals sampleExternals sampleParams 0 = true :=
  equals_refl sampleExternals sampleParams 0 (le_refl 0) (by
    simp [sampleExternals])

/-- C8: a verdict `true` at tolerance `tol1` stays `true` at every larger tolerance `tol2`,
when the same holds of `StereoMatchingParams::equals` on the two stereo groups. -/
theorem equals_mono_tol {S : Type} (ext : Externals S) (a b : FrontendParams S)
    (tol1 tol2 : ℚ) (h12 : tol1 ≤ tol2)
    (hs : ext.stereo_equals a.stereo_matching_params_ b.stereo_matching_params_ tol1 = true →
      ext.stereo_equals a.stereo_matching_params_ b.stereo_matching_params_ tol2 = true)
    (h : a.equals ext b tol1 = true) : a.equals ext b tol2 = true := by
  rw [frontend_equals_iff] at h ⊢
  obtain ⟨h1, h2, h3, h4, h5, h6, h7, h8, h9, h10, h11, h12', h13, h14, h15, h16, h17, h18,
    h19, h20, h21, h22, h23, h24, h25, h26, h27, h28, h29⟩ := h
  exact ⟨h1, h2, h3, h4.trans h12, h5, h6, h7, h8, h9.trans h12, h10.trans h12, h11, h12',
    h13.trans h12, hs h14, h15, h16, h17, h18.trans h12, h19.trans h12, h20, h21, h22,
    h23.trans h12, h24, h25.trans h12, h26, h27, h28, h29.trans h12⟩

/-- Witness for C8: `sampleParams` and `sampleParamsLater` are one nanosecond apart; they are
equal at tolerance 1, hence at tolerance 2. -/
theorem equals_mono_tol_witness :
    sampleParams.equals sampleExternals sampleParamsLater 2 = true :=
  equals_mono_tol sampleExternals sampleParams sampleParamsLater 1 2 (by norm_num)
    (fun _ => by simp [sampleExternals, sampleParams, sampleParamsLater])
    (equals_sampleParams_sampleParamsLater 1 (le_refl 1))

/-- One direction of the symmetry of `FrontendParams::equals`, at any tolerance. -/
theorem equals_swap {S : Type} (ext : Externals S) (a b : FrontendParams S) (tol : ℚ)
    (hs : ext.stereo_equals a.stereo_matching_params_ b.stereo_matching_params_ tol = true →
      ext.stereo_equals b.stereo_matching_params_ a.stereo_matching_params_ tol = true)
    (h : a.equals ext b tol = true) : b.equals ext a tol = true := by
  rw [frontend_equals_iff, subpixel_equals_iff] at h ⊢
  obtain ⟨h1, h2, h3, h4, h5, h6, ⟨e1, e2, e3, e4, e5⟩, h8, h9, h10, h11, h12, h13, h14,
    h15, h16, h17, h18, h19, h20, h21, h22, h23, h24, h25, h26, h27, h28, h29⟩ := h
  rw [abs_double_sub_comm] at h4 h9 h10 h13 h18 h19 h23 h29
  rw [abs_int64_to_double_sub_comm] at h25
  exact ⟨h1.symm, h2.symm, h3.symm, h4, h5.symm, h6.symm,
    ⟨e1.symm, e2.symm, e3.symm, e4.symm, e5.symm⟩, h8.symm, h9, h10, h11.symm, h12.symm,
    h13, hs h14, h15.symm, h16.symm, h17.symm, h18, h19, h20.symm, h21.symm, h22.symm, h23,
    h24.symm, h25, h26.symm, h27.symm, h28.symm, h29⟩

/-- C9: at tolerance 0 the verdict of `FrontendParams::equals` does not depend on the order
of the two configurations, when `StereoMatchingParams::equals` is symmetric on the two stereo
groups; and the verdict of `SubPixelCornerFinderParams::equals` never depends on the order
of its two groups. -/
theorem equals_symm_zero {S : Type} (ext : Externals S) (a b : FrontendParams S)
    (hs : ext.stereo_equals a.stereo_matching_params_ b.stereo_matching_params_ 0 =
      ext.stereo_equals b.stereo_matching_params_ a.stereo_matching_params_ 0) :
    a.equals ext b 0 = b.equals ext a 0 ∧
      ∀ x y : SubPixelCornerFinderParams, x.equals y 0 = y.equals x 0 := by
  constructor
  · rw [Bool.eq_iff_iff]
    exact ⟨equals_swap ext a b 0 (fun h => by rw [← hs]; exact h),
      equals_swap ext b a 0 (fun h => by rw [hs]; exact h)⟩
  · intro x y
    rw [Bool.eq_iff_iff, subpixel_equals_iff,
      subpixel_equals_iff]
    constructor
    · rintro ⟨e1, e2, e3, e4, e5⟩
      exact ⟨e1.symm, e2.symm, e3.symm, e4.symm, e5.symm⟩
    · rintro ⟨e1, e2, e3, e4, e5⟩
      exact ⟨e1.symm, e2.symm, e3.symm, e4.symm, e5.symm⟩

/-- Witness for C9: `sampleParams` and `sampleParamsStereo` in both orders. -/
theorem equals_symm_zero_witness :
    sampleParams.equals sampleExternals sampleParamsStereo 0 =
      sampleParamsStereo.equals sampleExternals sampleParams 0 :=
  (equals_symm_zero sampleExternals sampleParams sampleParamsStereo (by
    simp only [sampleExternals, sampleParams, sampleParamsStereo]
    rw [abs_sub_comm])).1

end VIO

namespace VIO

/-! ## Loading: the intra-keyframe time -/

/-- A time whose nanosecond count is a whole number is converted to that number. -/
theorem SecToNsec_of_int (s : ℚ) (n : Int) (h : s * 1000000000 = n) : SecToNsec s = n := by
  unfold SecToNsec
  rw [h]
  split_ifs
  · exact Int.floor_intCast n
  · exact Int.ceil_intCast n

/-- The conversion to nanoseconds is off from `s * 10^9` by less than one nanosecond. -/
theorem abs_SecToNsec_sub_lt_one (s : ℚ) : |(SecToNsec s : ℚ) - s * 1000000000| < 1 := by
  unfold SecToNsec
  rw [abs_lt]
  split_ifs
  · have h1 := Int.floor_le (s * 1000000000)
    have h2 := Int.lt_floor_add_one (s * 1000000000)
    constructor <;> linarith
  · have h1 := Int.le_ceil (s * 1000000000)
    have h2 := Int.ceil_lt_add_one (s * 1000000000)
    constructor <;> linarith

/-- Replacing the seconds value of the document by one with the same nanosecond conversion
does not change the outcome of `FrontendParams::parseYAML`, as long as the stereo group is
loaded alike from the two documents. -/
theorem parseYAML_setReal_intra_keyframe_time {S : Type} (ext : Externals S)
    (ind : Indeterminate) (doc : YamlDoc) (p : FrontendParams S) (s s2 : ℚ)
    (hs : doc.reals "intra_keyframe_time" = some s) (h : SecToNsec s2 = SecToNsec s)
    (hst : ext.stereo_parseYAML (doc.setReal "intra_keyframe_time" s2)
        p.stereo_matching_params_ = ext.stereo_parseYAML doc p.stereo_matching_params_) :
    p.parseYAML ext ind (doc.setReal "intra_keyframe_time" s2) = p.parseYAML ext ind doc := by
  unfold FrontendParams.parseYAML SubPixelCornerFinderParams.parseYAML
  rw [hst]
  simp only [YamlDoc.setReal, getYamlParam, String.reduceEq, if_false, if_true, hs, h]

/-- C10: for every document whose `intra_keyframe_time` is `s` seconds (and whose enumeration
codes are those of two modes), `FrontendParams::parseYAML` returns `true` with the stored
`intra_keyframe_time_ns_` equal to `SecToNsec s`, which is `s * 10^9` as an integer number of
nanoseconds: less than one nanosecond away from `s * 10^9`, and exactly `s * 10^9` when that
is a whole number, so that 0.5 seconds is stored as 500000000. The seconds value leaves no
other trace: a document that differs only in a seconds value with the same conversion gives
the same outcome. -/
theorem parseYAML_intra_keyframe_time_ns {S : Type} (ext : Externals S)
    (ind : Indeterminate) (doc : YamlDoc) (p : FrontendParams S) (s : ℚ) (c d : Int)
    (hs : doc.reals "intra_keyframe_time" = some s)
    (hc : doc.ints "feature_detector_type" = some c)
    (hcv : ∃ t : FeatureDetectorType, c = t.to_underlying ext)
    (hd : doc.ints "optical_flow_predictor_type" = some d)
    (hdv : ∃ o : OpticalFlowPredictorType, d = o.to_underlying ext) :
    (∃ q, p.parseYAML ext ind doc = Except.ok (true, q) ∧
        q.intra_keyframe_time_ns_ = SecToNsec s ∧
        |(q.intra_keyframe_time_ns_ : ℚ) - s * 1000000000| < 1 ∧
        (∀ n : Int, s * 1000000000 = n → q.intra_keyframe_time_ns_ = n) ∧
        (s = 1 / 2 → q.intra_keyframe_time_ns_ = 500000000)) ∧
      (∀ s2 : ℚ, SecToNsec s2 = SecToNsec s →
        ext.stereo_parseYAML (doc.setReal "intra_keyframe_time" s2)
            p.stereo_matching_params_ = ext.stereo_parseYAML doc p.stereo_matching_params_ →
        p.parseYAML ext ind (doc.setReal "intra_keyframe_time" s2) =
          p.parseYAML ext ind doc) := by
  constructor
  · obtain ⟨t, o, ht, ho⟩ := switches_of_valid_codes ext ind doc c d hc hcv hd hdv
    obtain ⟨q, hq, -, -, -, -, -, -, -, -, -, -, -, -, -, -, -, -, -, -, -, -, -, -, -, -,
      -, -, hns, -⟩ := parseYAML_ok_fields ext ind doc p t o ht ho
    rw [getYamlParam_some doc.reals "intra_keyframe_time" ind.intra_keyframe_time_seconds s
      hs] at hns
    refine ⟨q, hq, hns, ?_, ?_, ?_⟩
    · rw [hns]
      exact abs_SecToNsec_sub_lt_one s
    · intro n hn
      rw [hns]
      exact SecToNsec_of_int s n hn
    · intro h
      rw [hns]
      exact SecToNsec_of_int s 500000000 (by rw [h]; norm_num)
  · intro s2 h hst
    exact parseYAML_setReal_intra_keyframe_time ext ind doc p s s2 hs h hst

/-- Witness for C10: `sampleDoc` gives the intra-keyframe time as 0.5 seconds, and the stored
value is 500000000 nanoseconds. -/
theorem parseYAML_intra_keyframe_time_ns_witness :
    ∃ q, sampleParams.parseYAML sampleExternals sampleIndeterminate sampleDoc =
        Except.ok (true, q) ∧ q.intra_keyframe_time_ns_ = 500000000 := by
  obtain ⟨q, hq, -, -, -, h⟩ :=
    (parseYAML_intra_keyframe_time_ns sampleExternals sampleIndeterminate sampleDoc
      sampleParams (1 / 2) 0 1 rfl rfl ⟨FeatureDetectorType.FAST, rfl⟩ rfl
      ⟨OpticalFlowPredictorType.kRotational, rfl⟩).1
  exact ⟨q, hq, h rfl⟩

end VIO

namespace VIO

/-! ## Loading: the sub-pixel group -/

/-- C11: `SubPixelCornerFinderParams::parseYAML` stores square regions: a document with
`window_size = n` gives the window region `n x n`, a document with `zero_zone = z` gives the
zero-zone region `z x z`, and a document without a `zero_zone` key gives the zero-zone region
`-1 x -1`, whatever the state before the call. -/
theorem subpixel_parseYAML_square_regions {S : Type} (ext : Externals S) (doc : YamlDoc)
    (p : SubPixelCornerFinderParams) :
    (∀ n : Int, doc.ints "window_size" = some n →
        (SubPixelCornerFinderParams.parseYAML ext doc p).2.window_size_ =
          { width := n, height := n }) ∧
      (∀ z : Int, doc.ints "zero_zone" = some z →
        (SubPixelCornerFinderParams.parseYAML ext doc p).2.zero_zone_ =
          { width := z, height := z }) ∧
      (doc.ints "zero_zone" = none →
        (SubPixelCornerFinderParams.parseYAML ext doc p).2.zero_zone_ =
          { width := -1, height := -1 }) := by
  refine ⟨?_, ?_, ?_⟩
  · intro n h
    simp only [SubPixelCornerFinderParams.parseYAML]
    rw [getYamlParam_some _ _ _ n h]
  · intro z h
    simp only [SubPixelCornerFinderParams.parseYAML]
    rw [getYamlParam_some _ _ _ z h]
  · intro h
    simp only [SubPixelCornerFinderParams.parseYAML]
    rw [getYamlParam_none _ _ _ h]

/-- Witness for C11: `window_size = 7` gives 7 x 7; without a `zero_zone` key the zero zone
is -1 x -1 although it was not so before (here 4 x 4), and `zero_zone = 2` gives 2 x 2. -/
theorem subpixel_parseYAML_square_regions_witness :
    (SubPixelCornerFinderParams.parseYAML sampleExternals subPixelDoc
        { sampleSubPixel with zero_zone_ := { width := 4, height := 4 } }).2.window_size_ =
        { width := 7, height := 7 } ∧
      (SubPixelCornerFinderParams.parseYAML sampleExternals subPixelDoc
        { sampleSubPixel with zero_zone_ := { width := 4, height := 4 } }).2.zero_zone_ =
        { width := -1, height := -1 } ∧
      (SubPixelCornerFinderParams.parseYAML sampleExternals zeroZoneDoc sampleSubPixel).2.zero_zone_
        = { width := 2, height := 2 } :=
  ⟨(subpixel_parseYAML_square_regions sampleExternals subPixelDoc
      { sampleSubPixel with zero_zone_ := { width := 4, height := 4 } }).1 7 rfl,
    (subpixel_parseYAML_square_regions sampleExternals subPixelDoc
      { sampleSubPixel with zero_zone_ := { width := 4, height := 4 } }).2.2 rfl,
    (subpixel_parseYAML_square_regions sampleExternals zeroZoneDoc sampleSubPixel).2.1 2 rfl⟩

/-- C12: for every prior state and every document that holds the codes of two modes,
`FrontendParams::parseYAML` returns, and the owned sub-pixel group after the call is the
result of `SubPixelCornerFinderParams::parseYAML` on the same document when the loaded
`enable_subpixel_corner_finder_` flag is `true`, and is the group held before the call when
that flag is `false`. -/
theorem parseYAML_subpixel_conditional {S : Type} (ext : Externals S) (ind : Indeterminate)
    (doc : YamlDoc) (p : FrontendParams S) (c d : Int)
    (hc : doc.ints "feature_detector_type" = some c)
    (hcv : ∃ t : FeatureDetectorType, c = t.to_underlying ext)
    (hd : doc.ints "optical_flow_predictor_type" = some d)
    (hdv : ∃ o : OpticalFlowPredictorType, d = o.to_underlying ext) :
    ∃ q, p.parseYAML ext ind doc = Except.ok (true, q) ∧
      q.enable_subpixel_corner_finder_ =
        getYamlParam doc.bools "enable_subpixel_corner_finder"
          p.enable_subpixel_corner_finder_ ∧
      (q.enable_subpixel_corner_finder_ = true →
        q.subpixel_corner_finder_params_ =
          (SubPixelCornerFinderParams.parseYAML ext doc p.subpixel_corner_finder_params_).2) ∧
      (q.enable_subpixel_corner_finder_ = false →
        q.subpixel_corner_finder_params_ = p.subpixel_corner_finder_params_) := by
  obtain ⟨t, o, ht, ho⟩ := switches_of_valid_codes ext ind doc c d hc hcv hd hdv
  obtain ⟨q, hq, -, -, -, -, -, -, hen, hsub, -⟩ := parseYAML_ok_fields ext ind doc p t o ht ho
  refine ⟨q, hq, hen, ?_, ?_⟩
  · intro h
    rw [hen] at h
    rw [hsub, if_pos h]
  · intro h
    rw [hen] at h
    rw [hsub, if_neg (by rw [h]; exact Bool.false_ne_true)]

/-- Witness for C12: `subPixelDoc` switches the finder on, and the loaded group has the 7 x 7
window of the document; `sampleDoc` leaves it off, and the group of `sampleParams` stays. -/
theorem parseYAML_subpixel_conditional_witness :
    (∃ q, sampleParams.parseYAML sampleExternals sampleIndeterminate subPixelDoc =
        Except.ok (true, q) ∧
      q.subpixel_corner_finder_params_ =
        (SubPixelCornerFinderParams.parseYAML sampleExternals subPixelDoc sampleSubPixel).2) ∧
    (∃ q, sampleParams.parseYAML sampleExternals sampleIndeterminate sampleDoc =
        Except.ok (true, q) ∧
      q.subpixel_corner_finder_params_ = sampleSubPixel) := by
  obtain ⟨q1, hq1, hen1, hon1, -⟩ :=
    parseYAML_subpixel_conditional sampleExternals sampleIndeterminate subPixelDoc
      sampleParams 0 1 rfl ⟨FeatureDetectorType.FAST, rfl⟩ rfl
      ⟨OpticalFlowPredictorType.kRotational, rfl⟩
  obtain ⟨q2, hq2, hen2, -, hoff2⟩ :=
    parseYAML_subpixel_conditional sampleExternals sampleIndeterminate sampleDoc
      sampleParams 0 1 rfl ⟨FeatureDetectorType.FAST, rfl⟩ rfl
      ⟨OpticalFlowPredictorType.kRotational, rfl⟩
  exact ⟨⟨q1, hq1, hon1 (hen1.trans rfl)⟩, ⟨q2, hq2, hoff2 (hen2.trans rfl)⟩⟩

end VIO

namespace VIO

/-! ## Loading: the minimum number of features -/

/-- The value of `static_cast<size_t>(n)`, read as an integer, is `n` modulo `2 ^ 64`. -/
theorem static_cast_size_t_cast (n : Int) : (static_cast_size_t n : Int) = n % 2 ^ 64 := by
  unfold static_cast_size_t
  exact Int.toNat_of_nonneg (Int.emod_nonneg n (by norm_num))

/-- C13, as stated, fails: the document gives `minNumberFeatures` as -3, and the stored
`min_number_features_` is 18446744073709551613, not the magnitude 3. -/
theorem parseYAML_negative_minNumberFeatures_wraps :
    ∃ q, sampleParams.parseYAML sampleExternals sampleIndeterminate subPixelDoc =
        Except.ok (true, q) ∧
      subPixelDoc.ints "minNumberFeatures" = some (-3) ∧
      q.min_number_features_ = 18446744073709551613 ∧
      q.min_number_features_ ≠ Int.natAbs (-3) := by
  obtain ⟨q, hq, -, -, -, -, -, -, -, -, -, -, -, -, -, -, -, -, -, -, -, -, -, -, -, -,
    -, -, -, hmin, -⟩ :=
    parseYAML_ok_fields sampleExternals sampleIndeterminate subPixelDoc sampleParams
      FeatureDetectorType.FAST OpticalFlowPredictorType.kRotational rfl rfl
  have h3 : q.min_number_features_ = 18446744073709551613 := by
    rw [hmin, getYamlParam_some subPixelDoc.ints "minNumberFeatures"
      sampleIndeterminate.min_number_features (-3) rfl]
    rfl
  refine ⟨q, hq, rfl, h3, ?_⟩
  rw [h3]
  decide

/-- C13, amended: for every `int` value `n` loaded from the key `minNumberFeatures` (in a
document that holds the codes of two modes), `FrontendParams::parseYAML` stores
`min_number_features_` as `n` converted to the 64-bit unsigned type, that is `n` modulo
`2 ^ 64`: `n` itself whenever `n >= 0`, and `n + 2 ^ 64` whenever `n < 0`. -/
theorem parseYAML_minNumberFeatures_conversion {S : Type} (ext : Externals S)
    (ind : Indeterminate) (doc : YamlDoc) (p : FrontendParams S) (n c d : Int)
    (hn : doc.ints "minNumberFeatures" = some n)
    (hlo : -(2 ^ 31) ≤ n) (hhi : n < 2 ^ 31)
    (hc : doc.ints "feature_detector_type" = some c)
    (hcv : ∃ t : FeatureDetectorType, c = t.to_underlying ext)
    (hd : doc.ints "optical_flow_predictor_type" = some d)
    (hdv : ∃ o : OpticalFlowPredictorType, d = o.to_underlying ext) :
    ∃ q, p.parseYAML ext ind doc = Except.ok (true, q) ∧
      (q.min_number_features_ : Int) = n % 2 ^ 64 ∧
      (0 ≤ n → (q.min_number_features_ : Int) = n) ∧
      (n < 0 → (q.min_number_features_ : Int) = n + 2 ^ 64) := by
  obtain ⟨t, o, ht, ho⟩ := switches_of_valid_codes ext ind doc c d hc hcv hd hdv
  obtain ⟨q, hq, -, -, -, -, -, -, -, -, -, -, -, -, -, -, -, -, -, -, -, -, -, -, -, -,
    -, -, -, hmin, -⟩ := parseYAML_ok_fields ext ind doc p t o ht ho
  rw [getYamlParam_some doc.ints "minNumberFeatures" ind.min_number_features n hn] at hmin
  have hcast : (q.min_number_features_ : Int) = n % 2 ^ 64 := by
    rw [hmin]
    exact static_cast_size_t_cast n
  refine ⟨q, hq, hcast, ?_, ?_⟩
  · intro h0
    rw [hcast]
    norm_num at hlo hhi ⊢
    omega
  · intro h0
    rw [hcast]
    norm_num at hlo hhi ⊢
    omega

/-- Witness for C13 (amended): 12 is stored as 12, and -3 as 2 ^ 64 - 3. -/
theorem parseYAML_minNumberFeatures_conversion_witness :
    (∃ q, sampleParams.parseYAML sampleExternals sampleIndeterminate zeroZoneDoc =
        Except.ok (true, q) ∧ (q.min_number_features_ : Int) = 12) ∧
    (∃ q, sampleParams.parseYAML sampleExternals sampleIndeterminate subPixelDoc =
        Except.ok (true, q) ∧ (q.min_number_features_ : Int) = -3 + 2 ^ 64) := by
  obtain ⟨q1, hq1, -, h1, -⟩ :=
    parseYAML_minNumberFeatures_conversion sampleExternals sampleIndeterminate zeroZoneDoc
      sampleParams 12 0 1 rfl (by norm_num) (by norm_num) rfl ⟨FeatureDetectorType.FAST, rfl⟩
      rfl ⟨OpticalFlowPredictorType.kRotational, rfl⟩
  obtain ⟨q2, hq2, -, -, h2⟩ :=
    parseYAML_minNumberFeatures_conversion sampleExternals sampleIndeterminate subPixelDoc
      sampleParams (-3) 0 1 rfl (by norm_num) (by norm_num) rfl
      ⟨FeatureDetectorType.FAST, rfl⟩ rfl ⟨OpticalFlowPredictorType.kRotational, rfl⟩
  exact ⟨⟨q1, hq1, h1 (by norm_num)⟩, ⟨q2, hq2, h2 (by norm_num)⟩⟩

end VIO

namespace VIO

/-! ## Reporting -/

/-- C14: the reports emitted by `FrontendParams::print`, case by case on the two flags: the
scalar report always comes first; the sub-pixel report follows exactly when
`enable_subpixel_corner_finder_` is `true`; what `StereoMatchingParams::print` emits follows
exactly when `useStereoTracking_` is `true`; nothing else is emitted. The method is `const`:
it yields reports only, and the parameters in the scalar report are those it was called on. -/
theorem print_reports {S : Type} (ext : Externals S) (p : FrontendParams S) :
    (p.enable_subpixel_corner_finder_ = false → p.useStereoTracking_ = false →
        p.print ext = [Report.frontend p]) ∧
      (p.enable_subpixel_corner_finder_ = true → p.useStereoTracking_ = false →
        p.print ext = [Report.frontend p, Report.subpixel p.subpixel_corner_finder_params_]) ∧
      (p.enable_subpixel_corner_finder_ = false → p.useStereoTracking_ = true →
        p.print ext = Report.frontend p :: ext.stereo_print p.stereo_matching_params_) ∧
      (p.enable_subpixel_corner_finder_ = true → p.useStereoTracking_ = true →
        p.print ext =
          Report.frontend p :: Report.subpixel p.subpixel_corner_finder_params_ ::
            ext.stereo_print p.stereo_matching_params_) := by
  refine ⟨?_, ?_, ?_, ?_⟩ <;> intro h1 h2 <;>
    simp [FrontendParams.print, SubPixelCornerFinderParams.print, h1, h2]

/-- Witness for C14: with both flags off only the scalar report is emitted; with both on, the
scalar report, the sub-pixel report and the stereo report, in this order. -/
theorem print_reports_witness :
    sampleParams.print sampleExternals = [Report.frontend sampleParams] ∧
      sampleParamsAllOn.print sampleExternals =
        [Report.frontend sampleParamsAllOn, Report.subpixel sampleSubPixel,
          Report.stereo (15 / 100)] :=
  ⟨(print_reports sampleExternals sampleParams).1 rfl rfl,
    (print_reports sampleExternals sampleParamsAllOn).2.2.2 rfl rfl⟩

/-! ## Loading: the enumerated members -/

/-- C15: for every document whose `feature_detector_type` code `c` is the code of one of the
four detector modes and whose `optical_flow_predictor_type` code `d` is the code of one of
the two prediction modes, `FrontendParams::parseYAML` returns `true`, and the stored modes
have the underlying codes `c` and `d`. -/
theorem parseYAML_stores_modes_of_codes {S : Type} (ext : Externals S) (ind : Indeterminate)
    (doc : YamlDoc) (p : FrontendParams S) (c d : Int)
    (hc : doc.ints "feature_detector_type" = some c)
    (hcv : ∃ t : FeatureDetectorType, c = t.to_underlying ext)
    (hd : doc.ints "optical_flow_predictor_type" = some d)
    (hdv : ∃ o : OpticalFlowPredictorType, d = o.to_underlying ext) :
    ∃ q, p.parseYAML ext ind doc = Except.ok (true, q) ∧
      q.feature_detector_type_.to_underlying ext = c ∧
      q.optical_flow_predictor_type_.to_underlying ext = d := by
  obtain ⟨t, o, ht, ho⟩ := switches_of_valid_codes ext ind doc c d hc hcv hd hdv
  obtain ⟨q, hq, -, -, -, -, -, hofp, -, -, hfdt, -⟩ :=
    parseYAML_ok_fields ext ind doc p t o ht ho
  rw [getYamlParam_some doc.ints "feature_detector_type" ind.feature_detector_type c hc]
    at ht
  rw [getYamlParam_some doc.ints "optical_flow_predictor_type"
    ind.optical_flow_predictor_type d hd] at ho
  refine ⟨q, hq, ?_, ?_⟩
  · rw [hfdt]
    exact switchFeatureDetectorType_some ext c t ht
  · rw [hofp]
    exact switchOpticalFlowPredictorType_some ext d o ho

/-- Witness for C15: `sampleDoc` holds the codes 0 and 1; over `sampleParams` (GFTT,
kNoPrediction) the stored modes become FAST and kRotational. -/
theorem parseYAML_stores_modes_of_codes_witness :
    ∃ q, sampleParams.parseYAML sampleExternals sampleIndeterminate sampleDoc =
        Except.ok (true, q) ∧
      q.feature_detector_type_.to_underlying sampleExternals = 0 ∧
      q.optical_flow_predictor_type_.to_underlying sampleExternals = 1 :=
  parseYAML_stores_modes_of_codes sampleExternals sampleIndeterminate sampleDoc sampleParams
    0 1 rfl ⟨FeatureDetectorType.FAST, rfl⟩ rfl ⟨OpticalFlowPredictorType.kRotational, rfl⟩

/-- C16: after `SubPixelCornerFinderParams::parseYAML` the termination type is
`CV_TERMCRIT_EPS + CV_TERMCRIT_ITER`, for every state before the call and every document; so
any two calls, on whatever documents and states, leave the same termination type. -/
theorem subpixel_parseYAML_term_type_fixed {S : Type} (ext : Externals S) (doc : YamlDoc)
    (p : SubPixelCornerFinderParams) :
    (SubPixelCornerFinderParams.parseYAML ext doc p).2.term_criteria_.type =
        ext.CV_TERMCRIT_EPS + ext.CV_TERMCRIT_ITER ∧
      ∀ (doc2 : YamlDoc) (p2 : SubPixelCornerFinderParams),
        (SubPixelCornerFinderParams.parseYAML ext doc2 p2).2.term_criteria_.type =
          (SubPixelCornerFinderParams.parseYAML ext doc p).2.term_criteria_.type := by
  constructor
  · simp only [SubPixelCornerFinderParams.parseYAML]
  · intro doc2 p2
    simp only [SubPixelCornerFinderParams.parseYAML]

end VIO

namespace VIO

/-! ## Equality: negative tolerances and chains -/

/-- C17: at a negative tolerance `FrontendParams::equals` returns `false` on every pair of
configurations, a configuration against itself included, because no absolute difference is
at most a negative number. -/
theorem equals_false_of_neg_tol {S : Type} (ext : Externals S) (a b : FrontendParams S)
    (tol : ℚ) (htol : tol < 0) : a.equals ext b tol = false := by
  rw [← Bool.not_eq_true, frontend_equals_iff]
  intro hall
  obtain ⟨-, -, -, h4, -⟩ := hall
  exact absurd (le_trans (abs_nonneg _) h4) (not_le.mpr htol)

/-- Witness for C17: `sampleParams` is not equal to itself at tolerance -1. -/
theorem equals_false_of_neg_tol_witness :
    sampleParams.equals sampleExternals sampleParams (-1) = false :=
  equals_false_of_neg_tol sampleExternals sampleParams sampleParams (-1) (by norm_num)

/-- Two configurations that are `doubleParams` up to `klt_eps_` are compared by that member
alone. -/
theorem equals_doubleParams_klt_eps (x y tol : ℚ) (h0 : 0 ≤ tol) :
    ({ doubleParams with klt_eps_ := x } : FrontendParams ℚ).equals sampleExternals
        { doubleParams with klt_eps_ := y } tol = decide (|double_sub x y| ≤ tol) := by
  rw [Bool.eq_iff_iff, frontend_equals_iff, subpixel_equals_iff]
  simp [doubleParams, sampleParams, sampleExternals, double_sub_self, int64_sub_self,
    int64_to_double_zero, h0]

/-- C18, as stated, fails: with `klt_eps_` equal to 0.2, 0.3 and 0.8 in three otherwise
identical well-formed configurations, `equals(a, b, 0.1)` and `equals(b, c, 0.5)` are `true`
and `equals(a, c, 0.1 + 0.5)` is `false`, whether the sum of the tolerances is exact or
rounded, because the computed `0.2 - 0.8` has magnitude 0.6000000000000001; the stand-in
stereo comparison has the chain property. -/
theorem equals_chain_fails_in_double_arithmetic :
    (chainParams02.wellFormed ∧ chainParams03.wellFormed ∧ chainParams08.wellFormed) ∧
      (isDouble double_0_1 ∧ isDouble double_0_5 ∧ 0 ≤ double_0_1 ∧ 0 ≤ double_0_5) ∧
      (∀ x y z u1 u2 : ℚ, sampleExternals.stereo_equals x y u1 = true →
        sampleExternals.stereo_equals y z u2 = true →
        sampleExternals.stereo_equals x z (u1 + u2) = true) ∧
      chainParams02.equals sampleExternals chainParams03 double_0_1 = true ∧
      chainParams03.equals sampleExternals chainParams08 double_0_5 = true ∧
      chainParams02.equals sampleExternals chainParams08 (double_0_1 + double_0_5) = false ∧
      chainParams02.equals sampleExternals chainParams08 (double_add double_0_1 double_0_5) =
        false := by
  have h02 : isDouble double_0_2 :=
    isDouble_of _ (-3) 7205759403792794 (by norm_num) (by norm_num [double_0_2])
      (by norm_num [double_0_2]) (by norm_num [double_0_2])
  have h03 : isDouble double_0_3 :=
    isDouble_of _ (-2) 5404319552844595 (by norm_num) (by norm_num [double_0_3])
      (by norm_num [double_0_3]) (by norm_num [double_0_3])
  have h08 : isDouble double_0_8 :=
    isDouble_of _ (-1) 7205759403792794 (by norm_num) (by norm_num [double_0_8])
      (by norm_num [double_0_8]) (by norm_num [double_0_8])
  have h01 : isDouble double_0_1 :=
    isDouble_of _ (-4) 7205759403792794 (by norm_num) (by norm_num [double_0_1])
      (by norm_num [double_0_1]) (by norm_num [double_0_1])
  have h05 : isDouble double_0_5 :=
    isDouble_of _ (-1) (2 ^ 52) (by norm_num) (by norm_num [double_0_5])
      (by norm_num [double_0_5]) (by norm_num [double_0_5])
  have p01 : (0 : ℚ) ≤ double_0_1 := by norm_num [double_0_1]
  have p05 : (0 : ℚ) ≤ double_0_5 := by norm_num [double_0_5]
  refine ⟨⟨⟨h02, doubleParams_wellFormed.2⟩, ⟨h03, doubleParams_wellFormed.2⟩,
    ⟨h08, doubleParams_wellFormed.2⟩⟩, ⟨h01, h05, p01, p05⟩, ?_, ?_, ?_, ?_, ?_⟩
  · intro x y z u1 u2 hxy hyz
    simp only [sampleExternals, decide_eq_true_eq] at hxy hyz ⊢
    exact le_trans (abs_sub_le x y z) (add_le_add hxy hyz)
  · refine (equals_doubleParams_klt_eps double_0_2 double_0_3 double_0_1 p01).trans ?_
    rw [double_sub_0_2_0_3, decide_eq_true_eq, abs_neg]
    norm_num [double_0_1, abs_of_pos]
  · refine (equals_doubleParams_klt_eps double_0_3 double_0_8 double_0_5 p05).trans ?_
    rw [double_sub_0_3_0_8, decide_eq_true_eq, abs_neg]
    norm_num [double_0_5, abs_of_pos]
  · refine (equals_doubleParams_klt_eps double_0_2 double_0_8 (double_0_1 + double_0_5)
      (add_nonneg p01 p05)).trans ?_
    rw [double_sub_0_2_0_8, decide_eq_false_iff_not, abs_neg]
    norm_num [double_0_1, double_0_5, abs_of_pos]
  · refine (equals_doubleParams_klt_eps double_0_2 double_0_8
      (double_add double_0_1 double_0_5) (by rw [double_add_0_1_0_5]; norm_num)).trans ?_
    rw [double_sub_0_2_0_8, double_add_0_1_0_5, decide_eq_false_iff_not, abs_neg]
    norm_num [abs_of_pos]

/-- Two doubles that are each within tolerance 0 of a third one are within tolerance 0 of each
other: a computed difference of magnitude 0 means equal operands. -/
theorem double_sub_chain_zero (x y z : ℚ) (hx : isDouble x) (hy : isDouble y)
    (hz : isDouble z) (h1 : |double_sub x y| ≤ 0) (h2 : |double_sub y z| ≤ 0) :
    |double_sub x z| ≤ 0 := by
  have e1 : x = y := eq_of_double_sub_eq_zero x y hx hy (abs_nonpos_iff.mp h1)
  have e2 : y = z := eq_of_double_sub_eq_zero y z hy hz (abs_nonpos_iff.mp h2)
  rw [e1, e2, double_sub_self, abs_zero]

/-- Two `int64_t` times that are each within tolerance 0 of a third one are within tolerance
0 of each other. -/
theorem int64_sub_chain_zero (x y z : Int) (hx : isInt64 x) (hy : isInt64 y)
    (hz : isInt64 z) (h1 : |int64_to_double (int64_sub x y)| ≤ 0)
    (h2 : |int64_to_double (int64_sub y z)| ≤ 0) :
    |int64_to_double (int64_sub x z)| ≤ 0 := by
  have e1 : x = y := by
    by_contra hne
    have hge := one_le_abs_int64_to_double _
      (fun h0 => hne (int64_sub_eq_zero x y hx hy h0))
    linarith
  have e2 : y = z := by
    by_contra hne
    have hge := one_le_abs_int64_to_double _
      (fun h0 => hne (int64_sub_eq_zero y z hy hz h0))
    linarith
  rw [e1, e2, int64_sub_self, int64_to_double_zero, abs_zero]

/-- C18, amended: `FrontendParams::equals` at tolerance 0 is transitive on well-formed
configurations (finite doubles, `int64_t` times): if `equals(a, b, 0)` and `equals(b, c, 0)`
are `true` then `equals(a, c, 0)` is `true`, when `StereoMatchingParams::equals` chains in
the same way on the three stereo groups. -/
theorem equals_trans_zero {S : Type} (ext : Externals S) (a b c : FrontendParams S)
    (ha : a.wellFormed) (hb : b.wellFormed) (hc : c.wellFormed)
    (hs : ext.stereo_equals a.stereo_matching_params_ b.stereo_matching_params_ 0 = true →
      ext.stereo_equals b.stereo_matching_params_ c.stereo_matching_params_ 0 = true →
      ext.stereo_equals a.stereo_matching_params_ c.stereo_matching_params_ 0 = true)
    (hab : a.equals ext b 0 = true) (hbc : b.equals ext c 0 = true) :
    a.equals ext c 0 = true := by
  rw [frontend_equals_iff, subpixel_equals_iff] at hab hbc ⊢
  obtain ⟨a1, a2, a3, a4, a5, a6, ⟨ae1, ae2, ae3, ae4, ae5⟩, a8, a9, a10, a11, a12, a13, a14,
    a15, a16, a17, a18, a19, a20, a21, a22, a23, a24, a25, a26, a27, a28, a29⟩ := hab
  obtain ⟨b1, b2, b3, b4, b5, b6, ⟨be1, be2, be3, be4, be5⟩, b8, b9, b10, b11, b12, b13, b14,
    b15, b16, b17, b18, b19, b20, b21, b22, b23, b24, b25, b26, b27, b28, b29⟩ := hbc
  obtain ⟨x1, x2, x3, x4, x5, x6, x7, x8, x9⟩ := ha
  obtain ⟨y1, y2, y3, y4, y5, y6, y7, y8, y9⟩ := hb
  obtain ⟨z1, z2, z3, z4, z5, z6, z7, z8, z9⟩ := hc
  exact ⟨a1.trans b1, a2.trans b2, a3.trans b3, double_sub_chain_zero _ _ _ x1 y1 z1 a4 b4,
    a5.trans b5, a6.trans b6,
    ⟨ae1.trans be1, ae2.trans be2, ae3.trans be3, ae4.trans be4, ae5.trans be5⟩,
    a8.trans b8, double_sub_chain_zero _ _ _ x2 y2 z2 a9 b9,
    double_sub_chain_zero _ _ _ x3 y3 z3 a10 b10, a11.trans b11, a12.trans b12,
    double_sub_chain_zero _ _ _ x4 y4 z4 a13 b13, hs a14 b14, a15.trans b15, a16.trans b16,
    a17.trans b17, double_sub_chain_zero _ _ _ x5 y5 z5 a18 b18,
    double_sub_chain_zero _ _ _ x6 y6 z6 a19 b19, a20.trans b20, a21.trans b21,
    a22.trans b22, double_sub_chain_zero _ _ _ x7 y7 z7 a23 b23, a24.trans b24,
    int64_sub_chain_zero _ _ _ x9 y9 z9 a25 b25, a26.trans b26, a27.trans b27,
    a28.trans b28, double_sub_chain_zero _ _ _ x8 y8 z8 a29 b29⟩

/-- Witness for C18 (amended): three well-formed configurations that differ in the detector
mode only (GFTT, FAST, ORB) are equal at tolerance 0 in turn, hence the outer two are. -/
theorem equals_trans_zero_witness :
    doubleParams.equals sampleExternals doubleParamsORB 0 = true :=
  equals_trans_zero sampleExternals doubleParams doubleParamsFAST doubleParamsORB
    doubleParams_wellFormed doubleParams_wellFormed doubleParams_wellFormed
    (fun _ _ => by simp [sampleExternals, doubleParams, doubleParamsORB, sampleParams])
    (by simp [FrontendParams.equals, SubPixelCornerFinderParams.equals, doubleParams,
      doubleParamsFAST, sampleParams, sampleExternals, double_sub_self, int64_sub_self,
      int64_to_double_zero])
    (by simp [FrontendParams.equals, SubPixelCornerFinderParams.equals, doubleParams,
      doubleParamsFAST, doubleParamsORB, sampleParams, sampleExternals, double_sub_self,
      int64_sub_self, int64_to_double_zero])

/-! ## Loading: the returned boolean -/

/-- C19: `SubPixelCornerFinderParams::parseYAML` returns `true` on every state and document;
`FrontendParams::parseYAML` either returns `true`, or ends in the fatal error of the detector
`switch` on an integer that is the code of no detector mode, or ends in the fatal error of
the predictor `switch` on an integer that is the code of no prediction mode; neither method
returns `false`. -/
theorem parseYAML_result_is_true {S : Type} (ext : Externals S) (ind : Indeterminate)
    (doc : YamlDoc) (p : FrontendParams S) (sp : SubPixelCornerFinderParams) :
    (SubPixelCornerFinderParams.parseYAML ext doc sp).1 = true ∧
      ((∃ q, p.parseYAML ext ind doc = Except.ok (true, q)) ∨
        (p.parseYAML ext ind doc = Except.error "Unknown Feature Detector Type" ∧
          ∀ t : FeatureDetectorType,
            getYamlParam doc.ints "feature_detector_type" ind.feature_detector_type ≠
              t.to_underlying ext) ∨
        (p.parseYAML ext ind doc = Except.error "Unknown Optical Flow Predictor Type" ∧
          ∀ o : OpticalFlowPredictorType,
            getYamlParam doc.ints "optical_flow_predictor_type"
              ind.optical_flow_predictor_type ≠ o.to_underlying ext)) ∧
      (∀ q, p.parseYAML ext ind doc ≠ Except.ok (false, q)) := by
  have hmain : (∃ q, p.parseYAML ext ind doc = Except.ok (true, q)) ∨
      (p.parseYAML ext ind doc = Except.error "Unknown Feature Detector Type" ∧
        ∀ t : FeatureDetectorType,
          getYamlParam doc.ints "feature_detector_type" ind.feature_detector_type ≠
            t.to_underlying ext) ∨
      (p.parseYAML ext ind doc = Except.error "Unknown Optical Flow Predictor Type" ∧
        ∀ o : OpticalFlowPredictorType,
          getYamlParam doc.ints "optical_flow_predictor_type"
            ind.optical_flow_predictor_type ≠ o.to_underlying ext) := by
    cases h1 : switchFeatureDetectorType ext
        (getYamlParam doc.ints "feature_detector_type" ind.feature_detector_type) with
    | none =>
      right
      left
      refine ⟨?_, (switchFeatureDetectorType_eq_none_iff ext _).mp h1⟩
      unfold FrontendParams.parseYAML
      simp only [h1]
    | some t =>
      cases h2 : switchOpticalFlowPredictorType ext
          (getYamlParam doc.ints "optical_flow_predictor_type"
            ind.optical_flow_predictor_type) with
      | none =>
        right
        right
        refine ⟨?_, (switchOpticalFlowPredictorType_eq_none_iff ext _).mp h2⟩
        unfold FrontendParams.parseYAML
        simp only [h1, h2]
      | some o =>
        left
        obtain ⟨q, hq, -⟩ := parseYAML_ok_fields ext ind doc p t o h1 h2
        exact ⟨q, hq⟩
  refine ⟨rfl, hmain, ?_⟩
  intro q hq
  rcases hmain with ⟨q2, h⟩ | ⟨h, -⟩ | ⟨h, -⟩
  · rw [h] at hq
    simp at hq
  · rw [h] at hq
    cases hq
  · rw [h] at hq
    cases hq

end VIO
